import Mathlib

/-!
Verification of the IPEDS merit-aid analysis pipeline
(`IPEDS_Merit_Aid_Analysis.py`).

The pipeline is embedded shallowly: pandas DataFrames become `Table`s
(association-list rows over a column schema), float cells become the
extended-rational type `Val` (rationals plus the IEEE special values
`inf`, `ninf` and `na`, where `na` plays the role of both NaN and the
missing-value marker that pandas represents as NaN), and fallible
operations (column selection on a frame that lacks the column, i.e. a
Python `KeyError`) return `Except`.

Quantiles follow `numpy.percentile` with the default linear
interpolation, including its two-branch `lerp` formula; medians follow
`numpy.median` (mean of the two middle order statistics for even
counts); both skip `na` entries, as the pandas wrappers drop NaNs.
Sorting follows `pandas.core.sorting.nargsort`: NaN keys are moved to
the end, and a descending sort reverses the non-NaN block, applies the
kernel argsort, and reverses again.  Because the code calls
`sort_values` with the default `kind='quicksort'`, whose tie order is
unspecified, the argsort kernel is a parameter constrained only by the
contract `IsValidArgsort` (it must produce a sorted permutation).
`stableArgsort` is one admissible kernel.
-/

/- Batteries seals the rational-number operations against unfolding;
concrete pipeline computations in witnesses and counterexamples are
evaluated by `decide`, which needs them reducible. -/
attribute [local semireducible] Rat.add Rat.mul Rat.sub Rat.inv Rat.ofScientific

/-- Extended value domain for numeric DataFrame cells: a rational, the two
IEEE infinities, or `na` (NaN, which pandas also uses as the missing marker). -/
inductive Val : Type where
  | na : Val
  | num : ℚ → Val
  | inf : Val
  | ninf : Val
deriving DecidableEq, Repr

namespace Val

/-- True exactly on `na` (the NaN / missing marker). -/
def isNA : Val → Bool
  | na => true
  | _ => false

/-- IEEE-style `≤`: any comparison with NaN is false. -/
def le : Val → Val → Bool
  | na, _ => false
  | _, na => false
  | ninf, _ => true
  | num _, ninf => false
  | num a, num b => a ≤ b
  | num _, inf => true
  | inf, inf => true
  | inf, _ => false

/-- IEEE-style `<`: any comparison with NaN is false. -/
def lt : Val → Val → Bool
  | na, _ => false
  | _, na => false
  | ninf, ninf => false
  | ninf, _ => true
  | num _, ninf => false
  | num a, num b => a < b
  | num _, inf => true
  | inf, _ => false

/-- IEEE-style equality test: NaN is not equal to anything, including itself. -/
def veq : Val → Val → Bool
  | na, _ => false
  | _, na => false
  | num a, num b => a == b
  | inf, inf => true
  | ninf, ninf => true
  | _, _ => false

/-- IEEE-style addition on the extended domain. -/
def add : Val → Val → Val
  | na, _ => na
  | _, na => na
  | inf, ninf => na
  | ninf, inf => na
  | inf, _ => inf
  | _, inf => inf
  | ninf, _ => ninf
  | _, ninf => ninf
  | num a, num b => num (a + b)

/-- IEEE-style negation. -/
def neg : Val → Val
  | na => na
  | inf => ninf
  | ninf => inf
  | num a => num (-a)

/-- IEEE-style subtraction. -/
def sub (a b : Val) : Val := add a (neg b)

/-- IEEE-style multiplication (`inf * 0 = NaN`). -/
def mul : Val → Val → Val
  | na, _ => na
  | _, na => na
  | num a, num b => num (a * b)
  | inf, inf => inf
  | inf, ninf => ninf
  | ninf, inf => ninf
  | ninf, ninf => inf
  | inf, num q => if 0 < q then inf else if q < 0 then ninf else na
  | num q, inf => if 0 < q then inf else if q < 0 then ninf else na
  | ninf, num q => if 0 < q then ninf else if q < 0 then inf else na
  | num q, ninf => if 0 < q then ninf else if q < 0 then inf else na

/-- IEEE-style division as numpy performs it on float columns: a nonzero
rational divided by zero gives a signed infinity, `0/0` and `inf/inf`
give NaN, and any finite value divided by an infinity gives `0`. -/
def div : Val → Val → Val
  | na, _ => na
  | _, na => na
  | num a, num b =>
      if b = 0 then (if 0 < a then inf else if a < 0 then ninf else na)
      else num (a / b)
  | num _, inf => num 0
  | num _, ninf => num 0
  | inf, num b => if b < 0 then ninf else inf
  | ninf, num b => if b < 0 then inf else ninf
  | inf, _ => na
  | ninf, _ => na

/-- Total comparison used only inside the sorting kernel, ordering
`ninf < num _ < inf < na` (numpy sorts NaN to the end). -/
def sortLt : Val → Val → Bool
  | _, ninf => false
  | ninf, _ => true
  | num a, num b => a < b
  | num _, _ => true
  | inf, num _ => false
  | inf, inf => false
  | inf, _ => true
  | na, _ => false

end Val

/-- DataFrame cell: numeric (possibly NaN/infinite) or free text. -/
inductive Cell : Type where
  | v : Val → Cell
  | s : String → Cell
deriving DecidableEq, Repr

namespace Cell

/-- Numeric view of a cell: text behaves as NaN in numeric contexts. -/
def toVal : Cell → Val
  | v x => x
  | s _ => Val.na

/-- A cell counts as missing for `dropna`/`fillna`/`notna` exactly when it
is the numeric NaN. -/
def cellNA : Cell → Bool
  | v x => x.isNA
  | s _ => false

end Cell

/-- A DataFrame row: an association list from column name to cell. -/
abbrev Row : Type := List (String × Cell)

namespace Row

/-- Value of a column in a row; absent keys read as numeric NaN
(a well-formed frame has every schema column in every row). -/
def get (r : Row) (c : String) : Cell :=
  (List.lookup c r).getD (Cell.v Val.na)

/-- Numeric value of a column in a row. -/
def getV (r : Row) (c : String) : Val := (get r c).toVal

end Row

deriving instance DecidableEq for Except

/-- Shallow model of a pandas DataFrame: a column schema plus rows.
The positional index is implicit (row order); the pipeline only ever
uses default integer indexes. -/
structure Table : Type where
  cols : List String
  rows : List Row
deriving DecidableEq, Repr

namespace Table

/-- Column projection `df[[c₁, …]]`; raises `KeyError` (here: `Except.error`)
if any requested column is absent from the schema. -/
def select (t : Table) (cs : List String) : Except String Table :=
  if cs.all (fun c => t.cols.contains c) then
    .ok { cols := cs, rows := t.rows.map (fun r => cs.map (fun c => (c, Row.get r c))) }
  else
    .error "KeyError"

/-- Row filter `df[mask]` for a boolean condition evaluated per row. -/
def filterRows (t : Table) (p : Row → Bool) : Table :=
  { cols := t.cols, rows := t.rows.filter p }

/-- Drop the entry for the join key from a row (the key column appears once
in a merge result). -/
def removeKey (r : Row) (key : String) : Row :=
  r.filter (fun p => p.1 ≠ key)

/-- The all-NaN padding a left join inserts for an unmatched left row. -/
def padRow (rcols : List String) (key : String) : Row :=
  (rcols.filter (fun c => c ≠ key)).map (fun c => (c, Cell.v Val.na))

/-- Shallow model of `left.merge(right, on=key, how=...)`.  For each left
row, every right row with an equal key fans out; with `how='left'`
(`isInner = false`) an unmatched left row survives padded with NaN, with
`how='inner'` it is dropped.  Left row order is preserved, as pandas does
for both join kinds used in the script. -/
def mergeT (l r : Table) (key : String) (isInner : Bool) : Table :=
  { cols := l.cols ++ r.cols.filter (fun c => c ≠ key),
    rows := l.rows.flatMap (fun lr =>
      let ms := r.rows.filter (fun rr => Row.get rr key == Row.get lr key)
      if ms.isEmpty then
        if isInner then [] else [lr ++ padRow r.cols key]
      else
        ms.map (fun rr => lr ++ removeKey rr key)) }

/-- Shallow model of `df.dropna(subset=cs)`. -/
def dropnaSubset (t : Table) (cs : List String) : Table :=
  filterRows t (fun r => cs.all (fun c => !(Row.get r c).cellNA))

/-- Shallow model of `df[name] = <column computed from each row>` where
`name` is a fresh column. -/
def addValCol (t : Table) (name : String) (f : Row → Val) : Table :=
  { cols := t.cols ++ [name],
    rows := t.rows.map (fun r => r ++ [(name, Cell.v (f r))]) }

/-- Replace missing entries of one column in one row by `x`. -/
def fillnaRow (c : String) (x : Val) (r : Row) : Row :=
  r.map (fun p => if p.1 = c ∧ p.2.cellNA then (c, Cell.v x) else p)

/-- Shallow model of `df[c].fillna(x, inplace=True)`. -/
def fillnaCol (t : Table) (c : String) (x : Val) : Table :=
  { cols := t.cols, rows := t.rows.map (fillnaRow c x) }

/-- Shallow model of `df[c] = df[c] / 100` (percentage rescaling). -/
def rescaleRow (c : String) (r : Row) : Row :=
  r.map (fun p => if p.1 = c then (c, Cell.v (Val.div p.2.toVal (Val.num 100))) else p)

/-- Column-wise division by 100. -/
def rescaleCol (t : Table) (c : String) : Table :=
  { cols := t.cols, rows := t.rows.map (rescaleRow c) }

/-- Rename one column name according to a finite mapping. -/
def renameKey (m : List (String × String)) (c : String) : String :=
  ((m.lookup c).getD c)

/-- Rename the keys of one row. -/
def renameRow (m : List (String × String)) (r : Row) : Row :=
  r.map (fun p => (renameKey m p.1, p.2))

/-- Shallow model of `df.rename(columns=m)`. -/
def renameCols (t : Table) (m : List (String × String)) : Table :=
  { cols := t.cols.map (renameKey m), rows := t.rows.map (renameRow m) }

/-- Shallow model of `df.head(n)` followed by `reset_index(drop=True)`
(the model keeps no explicit index, so only the truncation is visible). -/
def headN (t : Table) (n : ℕ) : Table :=
  { cols := t.cols, rows := t.rows.take n }

/-- The non-NaN values of one column, in row order. -/
def colVals (t : Table) (c : String) : List Val :=
  (t.rows.map (fun r => Row.get r c |>.toVal)).filter (fun x => !x.isNA)

end Table

/-- Linear interpolation as `numpy._lerp` computes it: for `t ≥ 1/2` numpy
uses the algebraically equal but floating-point-distinct form
`b - (b-a)*(1-t)`, which matters when infinities are involved. -/
def npLerp (a b : Val) (t : ℚ) : Val :=
  if t < 1/2 then Val.add a (Val.mul (Val.num t) (Val.sub b a))
  else Val.sub b (Val.mul (Val.num (1 - t)) (Val.sub b a))

/-- Ascending value sort used inside quantile/median computation (numpy
partitions; equal `Val`s are identical, so any correct sort yields the
same list). -/
def sortVals (xs : List Val) : List Val :=
  List.insertionSort (fun a b => ¬ Val.sortLt b a) xs

/-- Shallow model of `numpy.percentile(xs, 100*q)` with the default linear
interpolation, after NaN values have been dropped (as `Series.quantile`
does); an empty pool yields NaN. -/
def quantileList (xs : List Val) (q : ℚ) : Val :=
  let ys := sortVals (xs.filter (fun x => !x.isNA))
  if ys.length = 0 then Val.na
  else
    let virt : ℚ := q * ((ys.length : ℚ) - 1)
    let i : ℕ := virt.floor.toNat
    let γ : ℚ := virt - (i : ℚ)
    npLerp (ys.getD i Val.na) (ys.getD (min (i + 1) (ys.length - 1)) Val.na) γ

/-- Shallow model of `Series.quantile(q)`. -/
def Table.quantileCol (t : Table) (c : String) (q : ℚ) : Val :=
  quantileList (t.rows.map (fun r => Row.get r c |>.toVal)) q

/-- Shallow model of `numpy.median` on the non-NaN values: middle element
for an odd count, mean of the two middle elements for an even count. -/
def medianList (xs : List Val) : Val :=
  let ys := sortVals (xs.filter (fun x => !x.isNA))
  let n := ys.length
  if n = 0 then Val.na
  else if n % 2 = 1 then ys.getD (n / 2) Val.na
  else Val.div (Val.add (ys.getD (n / 2 - 1) Val.na) (ys.getD (n / 2) Val.na)) (Val.num 2)

/-- Shallow model of `Series.median()`. -/
def Table.medianCol (t : Table) (c : String) : Val :=
  medianList (t.rows.map (fun r => Row.get r c |>.toVal))

/-- Contract of the argsort kernel that `nargsort` applies to the non-NaN
values: numpy guarantees only that the result is a permutation of the
index range arranged in ascending value order; the default
`kind='quicksort'` gives no promise about the relative order of equal
values. -/
def IsValidArgsort (k : List Val → List ℕ) : Prop :=
  ∀ xs : List Val, (∀ x ∈ xs, x.isNA = false) →
    (k xs).Perm (List.range xs.length) ∧
    List.Pairwise (fun i j => Val.le (xs.getD i Val.na) (xs.getD j Val.na) = true) (k xs)

/-- Index comparison realizing a stable argsort: order by value, breaking
ties by original position. -/
def idxLe (xs : List Val) (i j : ℕ) : Prop :=
  Val.sortLt (xs.getD i Val.na) (xs.getD j Val.na) = true ∨
    (xs.getD i Val.na = xs.getD j Val.na ∧ i ≤ j)

instance (xs : List Val) : DecidableRel (idxLe xs) := fun _ _ => by
  unfold idxLe; infer_instance

/-- One admissible argsort kernel: a stable ascending argsort (what numpy
provides under `kind='stable'`). -/
def stableArgsort (xs : List Val) : List ℕ :=
  List.insertionSort (idxLe xs) (List.range xs.length)

/-- Shallow model of `pandas.core.sorting.nargsort` for a descending sort
with `na_position='last'`: the non-NaN block is reversed, argsorted by the
kernel, and reversed again; NaN rows keep their relative order at the end.
The result is the list of original row positions in output order. -/
def sortIndexer (kernel : List Val → List ℕ) (t : Table) (c : String) : List ℕ :=
  let vals := t.rows.map (fun r => Row.get r c |>.toVal)
  let idx := List.range t.rows.length
  let nn := idx.filter (fun i => !(vals.getD i Val.na).isNA)
  let nanIdx := idx.filter (fun i => (vals.getD i Val.na).isNA)
  let rv := (nn.map (fun i => vals.getD i Val.na)).reverse
  let ri := nn.reverse
  ((kernel rv).map (fun k => ri.getD k 0)).reverse ++ nanIdx

/-- Shallow model of `df.sort_values(by=c, ascending=False)`. -/
def Table.sortValuesDesc (kernel : List Val → List ℕ) (t : Table) (c : String) : Table :=
  { cols := t.cols, rows := (sortIndexer kernel t c).map (fun i => t.rows.getD i []) }

/-!  Embedding of `load_and_clean_data` (lines 26-63 of the script). -/

/-- Sentinel-to-missing normalization of one cell
(`replace([-1, -2, -9], np.nan)`): only numeric cells equal to one of the
three sentinel codes are affected. -/
def cleanCell (c : Cell) : Cell :=
  match c with
  | Cell.v (Val.num q) => if q = -1 ∨ q = -2 ∨ q = -9 then Cell.v Val.na else c
  | _ => c

/-- Sentinel normalization over a whole table
(`data[name].replace([-1, -2, -9], np.nan, inplace=True)`). -/
def replaceSentinels (t : Table) : Table :=
  { cols := t.cols, rows := t.rows.map (fun r => r.map (fun p => (p.1, cleanCell p.2))) }

/-- Embedding of the institution filter (lines 48-60): keep rows with
`ICLEVEL == 1`, `HDEGOFR1 >= 3` and a present `UNITID`, then project to
`UNITID`, `INSTNM`, `CONTROL`; a missing column is a caught `KeyError`. -/
def hdFilter (hd : Table) : Except String Table :=
  if ["ICLEVEL", "HDEGOFR1", "UNITID", "INSTNM", "CONTROL"].all
      (fun c => hd.cols.contains c) then
    (Table.filterRows hd (fun r =>
        Val.veq (Row.getV r "ICLEVEL") (Val.num 1) &&
        Val.le (Val.num 3) (Row.getV r "HDEGOFR1") &&
        !(Row.get r "UNITID").cellNA)).select ["UNITID", "INSTNM", "CONTROL"]
  else .error "KeyError"

/-- Embedding of `load_and_clean_data` after the files have been read:
sentinel normalization over the six numeric survey tables (`sfa_p1`,
`sfa_p2`, `ic`, `adm_sat`, `adm_rate`, `gr`; the directory and mission
tables are not touched), then the institution filter; a caught
`KeyError` in the filter makes the whole loader return `none`, as the
Python function returns `None`. -/
def load_and_clean_data (hd sfa_p1 sfa_p2 ic adm_sat adm_rate gr mission : Table) :
    Option (Table × Table × Table × Table × Table × Table × Table × Table) :=
  let sfa_p1c := replaceSentinels sfa_p1
  let sfa_p2c := replaceSentinels sfa_p2
  let icc := replaceSentinels ic
  let adm_satc := replaceSentinels adm_sat
  let adm_ratec := replaceSentinels adm_rate
  let grc := replaceSentinels gr
  match hdFilter hd with
  | .error _ => none
  | .ok hdF => some (hdF, sfa_p1c, sfa_p2c, icc, adm_satc, adm_ratec, grc, mission)

/-!  Embedding of `calculate_metrics` (lines 67-144 of the script). -/

/-- The rename map of lines 131-138. -/
def renameMap : List (String × String) :=
  [("TUITION2", "Sticker_Price"), ("IGRNT_A", "Avg_Inst_Grant"),
   ("NPT442", "Net_Price_MidClass"), ("GBA4RTT", "Graduation_Rate_4yr"),
   ("DVADM01", "Admissions_Rate"), ("mission", "MISSION")]

/-- Join sequence of section 3.4 (lines 112-116), starting from the
already-selected auxiliary tables: the filtered institution table is
left-joined in turn with tuition, merged financial aid, merged
admissions, outcomes and mission data. -/
def mergeAll (hd sfa_data_merged adm_data_merged ic_data gr_data mission_data : Table) :
    Table :=
  let m1 := Table.mergeT hd ic_data "UNITID" false
  let m2 := Table.mergeT m1 sfa_data_merged "UNITID" false
  let m3 := Table.mergeT m2 adm_data_merged "UNITID" false
  let m4 := Table.mergeT m3 gr_data "UNITID" false
  Table.mergeT m4 mission_data "UNITID" false

/-- Drop of line 119: remove rows missing any of the three load-bearing
financial fields. -/
def dropFinancial (t : Table) : Table :=
  Table.dropnaSubset t ["TUITION2", "IGRNT_A", "NPT442"]

/-- Derivation stage, lines 121-142: MGI, the graduation-rate median
fill, the net-price ratio, the rename to report names, and the
percentage-to-fraction rescaling of the two rate columns, in exactly the
order the script performs them. -/
def metricsStage (t : Table) : Table :=
  let m3 := Table.addValCol t "MGI"
    (fun r => Val.div (Row.getV r "IGRNT_A") (Row.getV r "TUITION2"))
  let m4 := Table.fillnaCol m3 "GBA4RTT" (Table.medianCol m3 "GBA4RTT")
  let m5 := Table.addValCol m4 "NET_PRICE_RATIO"
    (fun r => Val.div (Row.getV r "NPT442") (Row.getV r "TUITION2"))
  let m6 := Table.renameCols m5 renameMap
  let m7 := Table.rescaleCol m6 "Graduation_Rate_4yr"
  Table.rescaleCol m7 "Admissions_Rate"

/-- Embedding of `calculate_metrics`.  The `sfa_p1`/`sfa_p2`/`ic` column
selections are outside any `try` in the script, so their `KeyError`
propagates (`Except.error`); the admissions, graduation-rate and mission
selections are inside `try/except` blocks that report the error and
return an empty DataFrame (`Except.ok` of an empty table). -/
def calculate_metrics (hd sfa_p1 sfa_p2 ic adm_sat adm_rate gr mission : Table) :
    Except String Table := do
  let s1 ← sfa_p1.select ["UNITID", "IGRNT_A"]
  let s2 ← sfa_p2.select ["UNITID", "NPT442"]
  let sfa_data_merged := Table.mergeT s1 s2 "UNITID" true
  match (do
      let a ← adm_sat.select ["UNITID", "SATVR75", "SATMT75"]
      let b ← adm_rate.select ["UNITID", "DVADM01"]
      pure (Table.mergeT a b "UNITID" false) : Except String Table) with
  | .error _ => return { cols := [], rows := [] }
  | .ok adm_data_merged =>
  let ic_data ← ic.select ["UNITID", "TUITION2"]
  match gr.select ["UNITID", "GBA4RTT"] with
  | .error _ => return { cols := [], rows := [] }
  | .ok gr_data =>
  match (mission.select ["unitid", "mission"]).map
      (fun t => Table.renameCols t [("unitid", "UNITID")]) with
  | .error _ => return { cols := [], rows := [] }
  | .ok mission_data =>
  return metricsStage
    (dropFinancial (mergeAll hd sfa_data_merged adm_data_merged ic_data gr_data mission_data))

/-!  Embedding of `generate_insights` (lines 148-180 of the script). -/

/-- The net-price condition of line 154. -/
def netPred (r : Row) : Bool :=
  Val.le (Row.getV r "Net_Price_MidClass") (Val.num 25000)

/-- The MGI condition of line 158, for a given threshold. -/
def mgiPred (thr : Val) (r : Row) : Bool :=
  Val.le thr (Row.getV r "MGI")

/-- The combined fallback condition of lines 163-166, for given
thresholds. -/
def fbPred (netThr mgiThr : Val) (r : Row) : Bool :=
  Val.le (Row.getV r "Net_Price_MidClass") netThr && Val.le mgiThr (Row.getV r "MGI")

/-- Tier-1 filter, lines 151-158: net price at most 25000, then MGI at
least the median MGI of the whole input pool (the threshold is taken
from `df`, not from the already-filtered frame). -/
def tier1 (df : Table) : Table :=
  let f1 := Table.filterRows df netPred
  let mgi_threshold := Table.quantileCol df "MGI" (1/2)
  Table.filterRows f1 (mgiPred mgi_threshold)

/-- Fallback filter, lines 163-166: net price at most the 0.30 quantile
and MGI at least the 0.80 quantile, both over the whole input pool. -/
def fallbackTier (df : Table) : Table :=
  Table.filterRows df
    (fbPred (Table.quantileCol df "Net_Price_MidClass" (3/10)) (Table.quantileCol df "MGI" (4/5)))

/-- Lines 151-166 combined: the fallback replaces the tier-1 result
exactly when fewer than 10 rows survived tier 1. -/
def survivors (df : Table) : Table :=
  if (tier1 df).rows.length < 10 then fallbackTier df else tier1 df

/-- The composite-score formula of line 169. -/
def compositeFormula (mgi grad npr : Val) : Val :=
  Val.div (Val.add mgi grad) npr

/-- The thirteen columns of the client report (lines 174-177). -/
def reportCols : List String :=
  ["UNITID", "INSTNM", "CONTROL", "Sticker_Price", "Avg_Inst_Grant",
   "Net_Price_MidClass", "MGI", "Graduation_Rate_4yr", "Admissions_Rate",
   "SATVR75", "SATMT75", "Composite_Score", "MISSION"]

/-- The composite score of one derived row (line 169). -/
def compositeRow (r : Row) : Val :=
  compositeFormula (Row.getV r "MGI") (Row.getV r "Graduation_Rate_4yr")
    (Row.getV r "NET_PRICE_RATIO")

/-- Embedding of `generate_insights`: two-tier filter, composite score,
descending sort (kernel as in `sortIndexer`), projection to the report
columns (a `KeyError` there would propagate), truncation to 20 rows. -/
def generate_insights (kernel : List Val → List ℕ) (df : Table) : Except String Table := do
  let final_df := survivors df
  let scored := Table.addValCol final_df "Composite_Score" compositeRow
  let sorted := Table.sortValuesDesc kernel scored "Composite_Score"
  let projected ← sorted.select reportCols
  return Table.headN projected 20

/-- A heap of DataFrame objects: Python variables hold references
(indices) into it, `.copy()` and frame-producing operations allocate,
and a column assignment mutates in place. -/
abbrev Heap := List Table

/-- The empty frame, default content of a dangling reference. -/
def emptyTable : Table := { cols := [], rows := [] }

/-- Heap-explicit embedding of `generate_insights`, statement by
statement, making aliasing and in-place mutation visible: line 151
(`df.copy()`) and the filters of lines 154/158/163-166 (each ending in
`.copy()`) allocate fresh frames, line 169
(`final_df['Composite_Score'] = ...`) mutates the frame `final_df`
references in place, and lines 171/174-178 allocate the sorted,
projected and truncated frames.  Returns the final heap and a reference
to the report frame. -/
def generate_insightsHeap (kernel : List Val → List ℕ) (h : Heap) (df : ℕ) :
    Heap × Except String ℕ :=
  let h1 := h ++ [h.getD df emptyTable]
  let f1 := h.length
  let h2 := h1 ++ [Table.filterRows (h1.getD f1 emptyTable) netPred]
  let f2 := h1.length
  let thr := Table.quantileCol (h2.getD df emptyTable) "MGI" (1/2)
  let h3 := h2 ++ [Table.filterRows (h2.getD f2 emptyTable) (mgiPred thr)]
  let f3 := h2.length
  let hf4 := if (h3.getD f3 emptyTable).rows.length < 10
    then (h3 ++ [fallbackTier (h3.getD df emptyTable)], h3.length)
    else (h3, f3)
  let h4 := hf4.1
  let f4 := hf4.2
  let h5 := h4.set f4 (Table.addValCol (h4.getD f4 emptyTable) "Composite_Score" compositeRow)
  let h6 := h5 ++ [Table.sortValuesDesc kernel (h5.getD f4 emptyTable) "Composite_Score"]
  let f5 := h5.length
  match (h6.getD f5 emptyTable).select reportCols with
  | .error e => (h6, .error e)
  | .ok proj => (h6 ++ [Table.headN proj 20], .ok h6.length)

/-!  Embedding of `run_phase_3_pipeline` (lines 257-300 of the script). -/

/-- Observable outcome of one pipeline run.  `fileWritten` records whether
`final_report.to_csv(...)` executed (line 283 — it is not guarded by any
emptiness check); `emptyMessage` records whether the
"No colleges met the stringent criteria" branch printed (line 300). -/
inductive PipeOutcome : Type where
  | loadFailed : PipeOutcome
  | uncaughtError : String → PipeOutcome
  | metricsEmpty : PipeOutcome
  | completed : (report : Table) → (fileWritten : Bool) → (emptyMessage : Bool) → PipeOutcome
deriving DecidableEq, Repr

/-- Embedding of `run_phase_3_pipeline`, from the already-read raw tables:
load/clean (returning `None` aborts), metric calculation (an uncaught
`KeyError` crashes; an empty result aborts before anything is written),
insight generation, then the unconditional CSV write, and finally either
the visualization branch or the empty-result message. -/
def run_phase_3_pipeline (kernel : List Val → List ℕ)
    (hd sfa_p1 sfa_p2 ic adm_sat adm_rate gr mission : Table) : PipeOutcome :=
  match load_and_clean_data hd sfa_p1 sfa_p2 ic adm_sat adm_rate gr mission with
  | none => .loadFailed
  | some (hdF, p1, p2, icc, asat, arate, grc, msn) =>
    match calculate_metrics hdF p1 p2 icc asat arate grc msn with
    | .error e => .uncaughtError e
    | .ok merged =>
      if merged.rows.isEmpty then .metricsEmpty
      else
        match generate_insights kernel merged with
        | .error e => .uncaughtError e
        | .ok final_report =>
          .completed final_report true final_report.rows.isEmpty

/-!  Concrete input data used by witnesses and counterexamples. -/

/-- Shorthand for a finite numeric cell. -/
def vc (q : ℚ) : Cell := Cell.v (Val.num q)

/-- Shorthand for the missing cell. -/
def naCell : Cell := Cell.v Val.na

/-- Institutions A (unitid 1) and B (unitid 2) of the end-to-end scenario:
the filtered institution table. -/
def hdC9 : Table :=
  { cols := ["UNITID", "INSTNM", "CONTROL"],
    rows := [[("UNITID", vc 1), ("INSTNM", Cell.s "A"), ("CONTROL", vc 1)],
             [("UNITID", vc 2), ("INSTNM", Cell.s "B"), ("CONTROL", vc 2)]] }

def sfaP1C9 : Table :=
  { cols := ["UNITID", "IGRNT_A"],
    rows := [[("UNITID", vc 1), ("IGRNT_A", vc 8000)],
             [("UNITID", vc 2), ("IGRNT_A", vc 30000)]] }

def sfaP2C9 : Table :=
  { cols := ["UNITID", "NPT442"],
    rows := [[("UNITID", vc 1), ("NPT442", vc 18000)],
             [("UNITID", vc 2), ("NPT442", vc 15000)]] }

def icC9 : Table :=
  { cols := ["UNITID", "TUITION2"],
    rows := [[("UNITID", vc 1), ("TUITION2", vc 20000)],
             [("UNITID", vc 2), ("TUITION2", vc 50000)]] }

def admSatC9 : Table :=
  { cols := ["UNITID", "SATVR75", "SATMT75"],
    rows := [[("UNITID", vc 1), ("SATVR75", vc 500), ("SATMT75", vc 510)],
             [("UNITID", vc 2), ("SATVR75", vc 600), ("SATMT75", vc 610)]] }

def admRateC9 : Table :=
  { cols := ["UNITID", "DVADM01"],
    rows := [[("UNITID", vc 1), ("DVADM01", naCell)],
             [("UNITID", vc 2), ("DVADM01", vc 40)]] }

def grC9 : Table :=
  { cols := ["UNITID", "GBA4RTT"],
    rows := [[("UNITID", vc 1), ("GBA4RTT", vc 60)],
             [("UNITID", vc 2), ("GBA4RTT", vc 90)]] }

def missionC9 : Table :=
  { cols := ["unitid", "mission"],
    rows := [[("unitid", vc 1), ("mission", Cell.s "mA")],
             [("unitid", vc 2), ("mission", Cell.s "mB")]] }

/-- Five-institution scenario exposing the zero-sticker-price path:
institution 1 has sticker price 0 (and hence MGI `+inf`). -/
def hdC5 : Table :=
  { cols := ["UNITID", "INSTNM", "CONTROL"],
    rows := (List.range 5).map (fun i =>
      [("UNITID", vc (i + 1)), ("INSTNM", Cell.s (toString (i + 1))), ("CONTROL", vc 1)]) }

def sfaP1C5 : Table :=
  { cols := ["UNITID", "IGRNT_A"],
    rows := [[("UNITID", vc 1), ("IGRNT_A", vc 5000)],
             [("UNITID", vc 2), ("IGRNT_A", vc 1000)],
             [("UNITID", vc 3), ("IGRNT_A", vc 2000)],
             [("UNITID", vc 4), ("IGRNT_A", vc 3000)],
             [("UNITID", vc 5), ("IGRNT_A", vc 4000)]] }

def sfaP2C5 : Table :=
  { cols := ["UNITID", "NPT442"],
    rows := [[("UNITID", vc 1), ("NPT442", vc 8000)],
             [("UNITID", vc 2), ("NPT442", vc 9000)],
             [("UNITID", vc 3), ("NPT442", vc 10000)],
             [("UNITID", vc 4), ("NPT442", vc 11000)],
             [("UNITID", vc 5), ("NPT442", vc 12000)]] }

def icC5 : Table :=
  { cols := ["UNITID", "TUITION2"],
    rows := [[("UNITID", vc 1), ("TUITION2", vc 0)],
             [("UNITID", vc 2), ("TUITION2", vc 10000)],
             [("UNITID", vc 3), ("TUITION2", vc 10000)],
             [("UNITID", vc 4), ("TUITION2", vc 10000)],
             [("UNITID", vc 5), ("TUITION2", vc 10000)]] }

def admSatC5 : Table :=
  { cols := ["UNITID", "SATVR75", "SATMT75"],
    rows := (List.range 5).map (fun i =>
      [("UNITID", vc (i + 1)), ("SATVR75", vc 500), ("SATMT75", vc 500)]) }

def admRateC5 : Table :=
  { cols := ["UNITID", "DVADM01"],
    rows := (List.range 5).map (fun i => [("UNITID", vc (i + 1)), ("DVADM01", vc 50)]) }

def grC5 : Table :=
  { cols := ["UNITID", "GBA4RTT"],
    rows := (List.range 5).map (fun i => [("UNITID", vc (i + 1)), ("GBA4RTT", vc 50)]) }

def missionC5 : Table :=
  { cols := ["unitid", "mission"],
    rows := (List.range 5).map (fun i => [("unitid", vc (i + 1)), ("mission", Cell.s "m")]) }

/-- Single-institution raw input whose only row survives the financial
drop but fails both filter tiers (`MGI = 0/0 = NaN`, net price 30000):
the final report is empty, yet the pipeline still writes the CSV. -/
def hdC2 : Table :=
  { cols := ["UNITID", "INSTNM", "CONTROL", "ICLEVEL", "HDEGOFR1"],
    rows := [[("UNITID", vc 7), ("INSTNM", Cell.s "U"), ("CONTROL", vc 1),
              ("ICLEVEL", vc 1), ("HDEGOFR1", vc 3)]] }

def sfaP1C2 : Table :=
  { cols := ["UNITID", "IGRNT_A"], rows := [[("UNITID", vc 7), ("IGRNT_A", vc 0)]] }

def sfaP2C2 : Table :=
  { cols := ["UNITID", "NPT442"], rows := [[("UNITID", vc 7), ("NPT442", vc 30000)]] }

def icC2 : Table :=
  { cols := ["UNITID", "TUITION2"], rows := [[("UNITID", vc 7), ("TUITION2", vc 0)]] }

def admSatC2 : Table :=
  { cols := ["UNITID", "SATVR75", "SATMT75"],
    rows := [[("UNITID", vc 7), ("SATVR75", naCell), ("SATMT75", naCell)]] }

def admRateC2 : Table :=
  { cols := ["UNITID", "DVADM01"], rows := [[("UNITID", vc 7), ("DVADM01", naCell)]] }

def grC2 : Table :=
  { cols := ["UNITID", "GBA4RTT"], rows := [[("UNITID", vc 7), ("GBA4RTT", naCell)]] }

def missionC2 : Table :=
  { cols := ["unitid", "mission"], rows := [[("unitid", vc 7), ("mission", Cell.s "m")]] }

/-- A pool with exactly 9 tier-1 survivors (nine affordable rows plus one
whose net price exceeds the ceiling): the fallback must activate. -/
def df9 : Table :=
  { cols := ["Net_Price_MidClass", "MGI"],
    rows := (List.range 9).map (fun _ => [("Net_Price_MidClass", vc 10000), ("MGI", vc 1)]) ++
      [[("Net_Price_MidClass", vc 30000), ("MGI", vc 2)]] }

/-- A pool with exactly 10 tier-1 survivors: the fallback must not activate. -/
def df10 : Table :=
  { cols := ["Net_Price_MidClass", "MGI"],
    rows := (List.range 10).map (fun _ => [("Net_Price_MidClass", vc 10000), ("MGI", vc 1)]) ++
      [[("Net_Price_MidClass", vc 30000), ("MGI", vc 2)]] }

/-- One fully merged/derived row of the tie pool, differing only in
identity. -/
def rowC4 (id : ℚ) (nm : String) : Row :=
  [("UNITID", vc id), ("INSTNM", Cell.s nm), ("CONTROL", vc 1),
   ("Sticker_Price", vc 10000), ("Avg_Inst_Grant", vc 5000),
   ("Net_Price_MidClass", vc 10000), ("SATVR75", vc 500), ("SATMT75", vc 500),
   ("Admissions_Rate", vc (1/2)), ("Graduation_Rate_4yr", vc (1/2)),
   ("MISSION", Cell.s "m"), ("MGI", vc (1/2)), ("NET_PRICE_RATIO", vc (1/2))]

/-- A two-row merged pool whose rows have identical metrics (both get
Composite Score 2) but different identities; both survive the fallback
tier, so the sort receives a genuine tie. -/
def dfC4 : Table :=
  { cols := ["UNITID", "INSTNM", "CONTROL", "Sticker_Price", "Avg_Inst_Grant",
             "Net_Price_MidClass", "SATVR75", "SATMT75", "Admissions_Rate",
             "Graduation_Rate_4yr", "MISSION", "MGI", "NET_PRICE_RATIO"],
    rows := [rowC4 1 "A", rowC4 2 "B"] }

/-- An argsort kernel satisfying `IsValidArgsort` (sorted permutation —
all that `kind='quicksort'` promises) that happens to emit the tied pair
of `dfC4` in the order opposite to `stableArgsort`. -/
def tieSwapKernel (xs : List Val) : List ℕ :=
  if xs = [Val.num 2, Val.num 2] then [1, 0] else stableArgsort xs



/-- The scored survivor table that enters the sort inside
`generate_insights` (lines 151-169). -/
def scoredOf (df : Table) : Table :=
  Table.addValCol (survivors df) "Composite_Score" compositeRow

/-- The row-position permutation the descending sort produces inside
`generate_insights` for a given kernel and pool. -/
def reportIndexer (kernel : List Val → List ℕ) (df : Table) : List ℕ :=
  sortIndexer kernel (scoredOf df) "Composite_Score"

/-- Composite-score column of a table, in row order. -/
def reportScores (t : Table) : List Val :=
  t.rows.map (fun r => Row.getV r "Composite_Score")

/-- Descending order by composite score: no later row has a strictly
larger score (NaN compares false, so NaN rows — placed last by the
sort — satisfy this vacuously). -/
def DescendingByComposite (t : Table) : Prop :=
  List.Pairwise (fun a b => Val.lt a b = false) (reportScores t)

/-- Stability of the report order: among report rows (the first 20 sort
positions) with equal composite score, the sort emits them in increasing
original row position. -/
def StableTies (kernel : List Val → List ℕ) (df : Table) : Prop :=
  ∀ i j : ℕ, i < j → j < min 20 (reportIndexer kernel df).length →
    Row.getV ((scoredOf df).rows.getD ((reportIndexer kernel df).getD i 0) []) "Composite_Score" =
      Row.getV ((scoredOf df).rows.getD ((reportIndexer kernel df).getD j 0) []) "Composite_Score" →
    (reportIndexer kernel df).getD i 0 < (reportIndexer kernel df).getD j 0

/-- Formalization of claim C4 as stated: for every admissible behavior of
the default (non-stable) quicksort kind and every pool, the report has at
most 20 rows, is ordered by composite score descending, and ties appear
in input order. -/
def C4Statement : Prop :=
  ∀ kernel, IsValidArgsort kernel → ∀ df rep,
    generate_insights kernel df = .ok rep →
      rep.rows.length ≤ 20 ∧ DescendingByComposite rep ∧ StableTies kernel df

/-- A financial-aid part-1 table lacking the required `IGRNT_A` column. -/
def sfaP1Bad : Table := { cols := ["UNITID"], rows := [] }

/-- The empty report frame the pipeline writes when nothing qualifies. -/
def reportC2empty : Table := { cols := reportCols, rows := [] }

/-- Metric-calculator output of the end-to-end scenario. -/
def metricsC9 : Except String Table :=
  calculate_metrics hdC9 sfaP1C9 sfaP2C9 icC9 admSatC9 admRateC9 grC9 missionC9

/-- Final report of the end-to-end scenario. -/
def reportC9 : Except String Table :=
  metricsC9.bind (generate_insights stableArgsort)

/-- Modelled from the spec: the join sequence of §4.3 steps 1-8 in the
spec's own wording — financial aid part 1 inner-joined with part 2 on the
identifier; admissions score left-joined with admissions rate; the
filtered institution table left-joined in turn with tuition, merged
financial aid, merged admissions, outcomes and mission; finally rows
missing sticker price, average grant or net price are dropped. -/
def joinSequenceSpec (hd s1 s2 a b ic_data gr_data mission_data : Table) : Table :=
  let fin := Table.mergeT s1 s2 "UNITID" true
  let adm := Table.mergeT a b "UNITID" false
  let j1 := Table.mergeT hd ic_data "UNITID" false
  let j2 := Table.mergeT j1 fin "UNITID" false
  let j3 := Table.mergeT j2 adm "UNITID" false
  let j4 := Table.mergeT j3 gr_data "UNITID" false
  let j5 := Table.mergeT j4 mission_data "UNITID" false
  Table.filterRows j5 (fun r =>
    !(Row.get r "TUITION2").cellNA && !(Row.get r "IGRNT_A").cellNA &&
      !(Row.get r "NPT442").cellNA)

/-!  Basic lemmas about the value domain. -/

theorem val_lt_na_right (x : Val) : Val.lt x Val.na = false := by
  cases x <;> rfl

theorem val_lt_eq_false_of_le {a b : Val} (h : Val.le b a = true) :
    Val.lt a b = false := by
  cases a <;> cases b <;> simp_all [Val.le, Val.lt]

theorem val_le_refl_of_not_na {x : Val} (h : x.isNA = false) : Val.le x x = true := by
  cases x <;> simp_all [Val.isNA, Val.le]

theorem val_le_of_sortLt {a b : Val} (ha : a.isNA = false) (hb : b.isNA = false)
    (h : Val.sortLt a b = true) : Val.le a b = true := by
  cases a <;> cases b <;> simp_all [Val.isNA, Val.sortLt, Val.le] <;> exact le_of_lt h

theorem val_sortLt_trans {a b c : Val} (h1 : Val.sortLt a b = true)
    (h2 : Val.sortLt b c = true) : Val.sortLt a c = true := by
  cases a <;> cases b <;> cases c <;> simp_all [Val.sortLt] <;> exact lt_trans h1 h2

theorem val_sortLt_trichotomy (a b : Val) :
    Val.sortLt a b = true ∨ a = b ∨ Val.sortLt b a = true := by
  cases a <;> cases b <;> simp_all [Val.sortLt]
  exact lt_trichotomy _ _

/-!  Lemmas about row (association-list) operations. -/

theorem lookup_map_value {β : Type} [DecidableEq β] (g : Cell → Cell) (k : β)
    (r : List (β × Cell)) :
    List.lookup k (r.map (fun p => (p.1, g p.2))) = (List.lookup k r).map g := by
  induction r with
  | nil => rfl
  | cons p rest ih =>
    by_cases h : k = p.1
    · simp [List.lookup, h]
    · simp [List.lookup, beq_false_of_ne h, ih]

theorem row_get_append_ne {r : Row} {n c : String} {v : Cell} (h : c ≠ n) :
    Row.get (r ++ [(n, v)]) c = Row.get r c := by
  induction r with
  | nil => simp [Row.get, List.lookup, beq_false_of_ne h]
  | cons p rest ih =>
    by_cases hp : c = p.1
    · simp [Row.get, List.lookup, hp]
    · simpa [Row.get, List.lookup, beq_false_of_ne hp] using ih

theorem rowv_get_append_ne {r : Row} {n c : String} {v : Cell} (h : c ≠ n) :
    Row.getV (r ++ [(n, v)]) c = Row.getV r c := by
  simp [Row.getV, row_get_append_ne h]

theorem lookup_isSome_append {r : Row} {n c : String} {v : Cell}
    (h : (List.lookup c r).isSome) : (List.lookup c (r ++ [(n, v)])).isSome := by
  induction r with
  | nil => simp [List.lookup] at h
  | cons p rest ih =>
    by_cases hp : c = p.1
    · simp [List.lookup, hp]
    · simp only [List.cons_append, List.lookup, beq_false_of_ne hp] at h ⊢
      exact ih h

theorem row_get_cons (k : String) (cv : Cell) (rest : Row) (c : String) :
    Row.get ((k, cv) :: rest) c = if c = k then cv else Row.get rest c := by
  by_cases h : c = k
  · simp [Row.get, List.lookup, h]
  · simp [Row.get, List.lookup, beq_false_of_ne h, h]

theorem row_get_fillnaRow_ne {c c' : String} {x : Val} (r : Row) (h : c' ≠ c) :
    Row.get (Table.fillnaRow c x r) c' = Row.get r c' := by
  induction r with
  | nil => rfl
  | cons p rest ih =>
    obtain ⟨k, cv⟩ := p
    show Row.get ((if k = c ∧ cv.cellNA then (c, Cell.v x) else (k, cv)) ::
      Table.fillnaRow c x rest) c' = _
    by_cases hcond : k = c ∧ cv.cellNA
    · rw [if_pos hcond, row_get_cons, row_get_cons, if_neg h,
        if_neg (hcond.1 ▸ h), ih]
    · rw [if_neg hcond, row_get_cons, row_get_cons]
      by_cases hk : c' = k
      · rw [if_pos hk, if_pos hk]
      · rw [if_neg hk, if_neg hk, ih]

theorem row_get_fillnaRow_self {c : String} {x : Val} (r : Row)
    (h : (List.lookup c r).isSome) :
    Row.get (Table.fillnaRow c x r) c =
      if (Row.get r c).cellNA then Cell.v x else Row.get r c := by
  induction r with
  | nil => simp [List.lookup] at h
  | cons p rest ih =>
    obtain ⟨k, cv⟩ := p
    show Row.get ((if k = c ∧ cv.cellNA then (c, Cell.v x) else (k, cv)) ::
      Table.fillnaRow c x rest) c = _
    by_cases hk : c = k
    · subst hk
      by_cases hna : cv.cellNA
      · rw [if_pos ⟨rfl, hna⟩, row_get_cons, if_pos rfl, row_get_cons, if_pos rfl, hna]
        simp
      · rw [if_neg (fun hc => hna hc.2), row_get_cons, if_pos rfl, row_get_cons,
          if_pos rfl]
        simp [hna]
    · have hcons : (List.lookup c ((k, cv) :: rest)).isSome := h
      simp only [List.lookup, beq_false_of_ne hk] at h
      by_cases hcond : k = c ∧ cv.cellNA
      · exact absurd hcond.1.symm hk
      · rw [if_neg hcond, row_get_cons, if_neg hk, row_get_cons, if_neg hk, ih h]

theorem row_get_rescaleRow_ne {c c' : String} (r : Row) (h : c' ≠ c) :
    Row.get (Table.rescaleRow c r) c' = Row.get r c' := by
  induction r with
  | nil => rfl
  | cons p rest ih =>
    obtain ⟨k, cv⟩ := p
    show Row.get ((if k = c then (c, Cell.v (Val.div cv.toVal (Val.num 100)))
      else (k, cv)) :: Table.rescaleRow c rest) c' = _
    by_cases hk : k = c
    · rw [if_pos hk, row_get_cons, row_get_cons, if_neg h, if_neg (hk ▸ h), ih]
    · rw [if_neg hk, row_get_cons, row_get_cons]
      by_cases hck : c' = k
      · rw [if_pos hck, if_pos hck]
      · rw [if_neg hck, if_neg hck, ih]

theorem row_get_rescaleRow_self (r : Row) (c : String) :
    Row.get (Table.rescaleRow c r) c =
      Cell.v (Val.div (Row.getV r c) (Val.num 100)) := by
  induction r with
  | nil => rfl
  | cons p rest ih =>
    obtain ⟨k, cv⟩ := p
    show Row.get ((if k = c then (c, Cell.v (Val.div cv.toVal (Val.num 100)))
      else (k, cv)) :: Table.rescaleRow c rest) c = _
    by_cases hk : k = c
    · subst hk
      rw [if_pos rfl, row_get_cons, if_pos rfl, Row.getV, row_get_cons, if_pos rfl]
    · have hck : c ≠ k := fun hh => hk hh.symm
      rw [if_neg hk, row_get_cons, if_neg hck, ih]
      simp [Row.getV, row_get_cons, hck]

theorem row_get_renameRow (m : List (String × String)) (src tgt : String) (r : Row)
    (hmap : Table.renameKey m src = tgt)
    (huniq : ∀ p ∈ r, Table.renameKey m p.1 = tgt → p.1 = src) :
    Row.get (Table.renameRow m r) tgt = Row.get r src := by
  induction r with
  | nil => rfl
  | cons p rest ih =>
    obtain ⟨k, cv⟩ := p
    show Row.get ((Table.renameKey m k, cv) :: Table.renameRow m rest) tgt = _
    rw [row_get_cons, row_get_cons]
    by_cases hk : Table.renameKey m k = tgt
    · have hks : k = src := huniq (k, cv) (by simp) hk
      rw [if_pos hk.symm, if_pos hks.symm]
    · have hsk : src ≠ k := fun hh => hk (hh ▸ hmap)
      have htk : tgt ≠ Table.renameKey m k := fun hh => hk hh.symm
      rw [if_neg htk, if_neg hsk, ih (fun q hq => huniq q (by simp [hq]))]

theorem lookup_isSome_renameRow {m : List (String × String)} {src tgt : String} (r : Row)
    (hmap : Table.renameKey m src = tgt)
    (h : (List.lookup src r).isSome) :
    (List.lookup tgt (Table.renameRow m r)).isSome := by
  induction r with
  | nil => simp [List.lookup] at h
  | cons p rest ih =>
    obtain ⟨k, cv⟩ := p
    by_cases hk : src = k
    · subst hk
      show (List.lookup tgt ((Table.renameKey m src, cv) :: _)).isSome
      simp [List.lookup, hmap]
    · simp only [List.lookup, beq_false_of_ne hk] at h
      show (List.lookup tgt ((Table.renameKey m k, cv) :: _)).isSome
      by_cases htk : tgt = Table.renameKey m k
      · simp [List.lookup, htk]
      · simp only [List.lookup, beq_false_of_ne htk]
        exact ih h

/-!  Indexing helpers. -/

theorem getD_map_of_lt {α β : Type} (f : α → β) (l : List α) (i : ℕ) (d : β) (d₀ : α)
    (h : i < l.length) : (l.map f).getD i d = f (l.getD i d₀) := by
  rw [List.getD_eq_getElem?_getD, List.getD_eq_getElem?_getD, List.getElem?_map,
    List.getElem?_eq_getElem h]
  simp

theorem mem_of_getD {α : Type} (l : List α) (i : ℕ) (d : α) (h : i < l.length) :
    l.getD i d ∈ l := by
  rw [List.getD_eq_getElem?_getD, List.getElem?_eq_getElem h]
  exact List.getElem_mem h

theorem row_get_select_row {cs : List String} {c : String} (r : Row) (h : c ∈ cs) :
    Row.get (cs.map (fun c' => (c', Row.get r c'))) c = Row.get r c := by
  induction cs with
  | nil => simp at h
  | cons c0 rest ih =>
    show Row.get ((c0, Row.get r c0) :: _) c = _
    rw [row_get_cons]
    by_cases hc : c = c0
    · rw [if_pos hc, hc]
    · rw [if_neg hc]
      exact ih ((List.mem_cons.mp h).resolve_left hc)

/-- Appending a fresh column does not change the median of an existing
column (the fill constant of line 125 is therefore the median of the
post-drop pool even though the frame already carries the MGI column). -/
theorem medianCol_addValCol (t : Table) (n c : String) (f : Row → Val) (h : c ≠ n) :
    Table.medianCol (Table.addValCol t n f) c = Table.medianCol t c := by
  unfold Table.medianCol Table.addValCol
  congr 1
  simp only [List.map_map]
  exact List.map_congr_left (fun r _ => by
    simp [Function.comp, Row.getV, row_get_append_ne h])

/-!  The stable kernel satisfies the argsort contract. -/

theorem idxLe_total (xs : List Val) : ∀ i j : ℕ, idxLe xs i j ∨ idxLe xs j i := by
  intro i j
  rcases val_sortLt_trichotomy (xs.getD i Val.na) (xs.getD j Val.na) with h | h | h
  · exact Or.inl (Or.inl h)
  · rcases Nat.le_total i j with hij | hji
    · exact Or.inl (Or.inr ⟨h, hij⟩)
    · exact Or.inr (Or.inr ⟨h.symm, hji⟩)
  · exact Or.inr (Or.inl h)

theorem idxLe_trans (xs : List Val) :
    ∀ i j k : ℕ, idxLe xs i j → idxLe xs j k → idxLe xs i k := by
  intro i j k h1 h2
  rcases h1 with h1 | ⟨he1, hle1⟩
  · rcases h2 with h2 | ⟨he2, _⟩
    · exact Or.inl (val_sortLt_trans h1 h2)
    · exact Or.inl (he2 ▸ h1)
  · rcases h2 with h2 | ⟨he2, hle2⟩
    · exact Or.inl (he1 ▸ h2)
    · exact Or.inr ⟨he1.trans he2, le_trans hle1 hle2⟩

theorem stableArgsort_valid : IsValidArgsort stableArgsort := by
  intro xs hna
  have hperm : (stableArgsort xs).Perm (List.range xs.length) :=
    List.perm_insertionSort _ _
  have hnonna : ∀ i ∈ stableArgsort xs, (xs.getD i Val.na).isNA = false := by
    intro i hi
    have hlt : i < xs.length := by
      have := hperm.mem_iff.mp hi
      simpa [List.mem_range] using this
    exact hna _ (mem_of_getD xs i Val.na hlt)
  refine ⟨hperm, ?_⟩
  haveI : IsTotal ℕ (idxLe xs) := ⟨idxLe_total xs⟩
  haveI : IsTrans ℕ (idxLe xs) := ⟨idxLe_trans xs⟩
  have hsorted : List.Pairwise (idxLe xs) (stableArgsort xs) :=
    List.sorted_insertionSort _ _
  refine hsorted.imp_of_mem ?_
  intro i j hi hj hij
  rcases hij with hlt | ⟨he, _⟩
  · exact val_le_of_sortLt (hnonna i hi) (hnonna j hj) hlt
  · rw [he]
    exact val_le_refl_of_not_na (hnonna j hj)

theorem tieSwapKernel_valid : IsValidArgsort tieSwapKernel := by
  intro xs hna
  unfold tieSwapKernel
  by_cases hxs : xs = [Val.num 2, Val.num 2]
  · subst hxs
    rw [if_pos rfl]
    exact ⟨by decide, by decide⟩
  · rw [if_neg hxs]
    exact stableArgsort_valid xs hna

/-!  Claim C1. -/

/-- C1: the tier-1 filter keeps exactly the rows with net price at most
25000 and MGI at least the 0.5 quantile of the MGI column of the entire
unfiltered pool; the fallback keeps exactly the rows with net price at
most the 0.30 net-price quantile and MGI at least the 0.80 MGI quantile,
both over the full pool; and the fallback replaces the tier-1 result if
and only if fewer than 10 rows survive tier 1. -/
theorem C1_two_tier_filter (df : Table) :
    (∀ r : Row, r ∈ (tier1 df).rows ↔
      r ∈ df.rows ∧ netPred r = true ∧
        mgiPred (Table.quantileCol df "MGI" (1/2)) r = true)
  ∧ (∀ r : Row, r ∈ (fallbackTier df).rows ↔
      r ∈ df.rows ∧ fbPred (Table.quantileCol df "Net_Price_MidClass" (3/10))
        (Table.quantileCol df "MGI" (4/5)) r = true)
  ∧ ((tier1 df).rows.length < 10 → survivors df = fallbackTier df)
  ∧ (10 ≤ (tier1 df).rows.length → survivors df = tier1 df) := by
  refine ⟨?_, ?_, ?_, ?_⟩
  · intro r
    simp only [tier1, Table.filterRows, List.mem_filter]
    tauto
  · intro r
    simp only [fallbackTier, Table.filterRows, List.mem_filter]
  · intro h
    simp only [survivors, if_pos h]
  · intro h
    simp only [survivors, if_neg (Nat.not_lt.mpr h)]

/-- Witness for C1 at the spec's own synthetic pools: with exactly 9
tier-1 survivors the fallback activates, with exactly 10 it does not. -/
theorem C1_two_tier_filter_witness :
    ((tier1 df9).rows.length < 10 ∧ survivors df9 = fallbackTier df9)
  ∧ (10 ≤ (tier1 df10).rows.length ∧ survivors df10 = tier1 df10) :=
  ⟨⟨by decide, (C1_two_tier_filter df9).2.2.1 (by decide)⟩,
   ⟨by decide, (C1_two_tier_filter df10).2.2.2 (by decide)⟩⟩

/-!  Claim C6. -/

theorem row_get_cleanRow (r : Row) (k : String) :
    Row.get (r.map (fun p => (p.1, cleanCell p.2))) k = cleanCell (Row.get r k) := by
  rw [Row.get, Row.get, lookup_map_value]
  cases List.lookup k r <;> rfl

/-- Helper institution table for the C6 witness: the filtered form of
`hdC2`. -/
def hdFC2 : Table :=
  { cols := ["UNITID", "INSTNM", "CONTROL"],
    rows := [[("UNITID", vc 7), ("INSTNM", Cell.s "U"), ("CONTROL", vc 1)]] }

/-- A one-cell survey table holding the sentinel value -9. -/
def tSentinel : Table := { cols := ["X"], rows := [[("X", vc (-9))]] }

/-- C6: after loading, every numeric cell holding a sentinel (-1, -2 or
-9) in the six numeric survey tables reads as the absent marker, and the
loader applies this normalization to exactly those six tables — the
institution directory table reaches the institution filter unnormalized
and the mission table is passed through untouched. -/
theorem C6_sentinel_handling :
    (∀ t : Table, ∀ i : ℕ, ∀ k : String, ∀ q : ℚ,
      Row.get (t.rows.getD i []) k = Cell.v (Val.num q) → q = -1 ∨ q = -2 ∨ q = -9 →
      Row.get ((replaceSentinels t).rows.getD i []) k = Cell.v Val.na)
  ∧ (∀ hd p1 p2 ic asat arate gr msn hdF : Table, hdFilter hd = .ok hdF →
      load_and_clean_data hd p1 p2 ic asat arate gr msn =
        some (hdF, replaceSentinels p1, replaceSentinels p2, replaceSentinels ic,
          replaceSentinels asat, replaceSentinels arate, replaceSentinels gr, msn)) := by
  constructor
  · intro t i k q hcell hq
    by_cases hi : i < t.rows.length
    · show Row.get ((t.rows.map (fun r => r.map (fun p => (p.1, cleanCell p.2)))).getD i []) k = _
      rw [getD_map_of_lt _ t.rows i [] [] hi, row_get_cleanRow, hcell]
      simp [cleanCell, hq]
    · have hnil : t.rows.getD i [] = [] := by
        rw [List.getD_eq_getElem?_getD, List.getElem?_eq_none (by omega)]
        rfl
      rw [hnil] at hcell
      exact absurd hcell (by simp [Row.get, List.lookup])
  · intro hd p1 p2 ic asat arate gr msn hdF hfil
    unfold load_and_clean_data
    rw [hfil]

/-- Witness for C6: a sentinel cell becomes absent, and the loader
normalizes the six survey tables while passing the directory and mission
tables around the normalization. -/
theorem C6_sentinel_handling_witness :
    Row.get ((replaceSentinels tSentinel).rows.getD 0 []) "X" = Cell.v Val.na
  ∧ load_and_clean_data hdC2 sfaP1C2 sfaP2C2 icC2 admSatC2 admRateC2 grC2 missionC2 =
      some (hdFC2, replaceSentinels sfaP1C2, replaceSentinels sfaP2C2,
        replaceSentinels icC2, replaceSentinels admSatC2, replaceSentinels admRateC2,
        replaceSentinels grC2, missionC2) :=
  ⟨C6_sentinel_handling.1 tSentinel 0 "X" (-9) (by decide) (by decide),
   C6_sentinel_handling.2 hdC2 sfaP1C2 sfaP2C2 icC2 admSatC2 admRateC2 grC2 missionC2
     hdFC2 (by decide)⟩

/-!  Claim C3. -/

theorem select_error_of_missing (t : Table) (cs : List String) (c : String)
    (hc : c ∈ cs) (h : t.cols.contains c = false) :
    t.select cs = .error "KeyError" := by
  unfold Table.select
  rw [if_neg]
  intro hall
  rw [List.all_eq_true] at hall
  have := hall c hc
  rw [h] at this
  exact absurd this (by simp)

/-- Counterexample to C3: a financial-aid part-1 table whose `IGRNT_A`
column is structurally missing makes `calculate_metrics` raise an
uncaught `KeyError` (lines 71-75 are outside every `try` block) instead
of returning an empty result. -/
theorem C3_counterexample :
    calculate_metrics hdC9 sfaP1Bad sfaP2C9 icC9 admSatC9 admRateC9 grC9 missionC9 =
      .error "KeyError" := by decide

/-- C3 amended: only missing columns in the admissions, outcomes and
mission tables are caught (reported and turned into an empty result);
missing columns in financial-aid part 1/2 and the tuition table raise an
uncaught `KeyError`. -/
theorem C3_schema_error_handling :
    (∀ hd p1 p2 ic asat arate gr msn : Table, p1.cols.contains "IGRNT_A" = false →
      calculate_metrics hd p1 p2 ic asat arate gr msn = .error "KeyError")
  ∧ (∀ hd p1 p2 ic asat arate gr msn s1 s2 : Table,
      p1.select ["UNITID", "IGRNT_A"] = .ok s1 →
      p2.select ["UNITID", "NPT442"] = .ok s2 →
      asat.cols.contains "SATVR75" = false →
      calculate_metrics hd p1 p2 ic asat arate gr msn = .ok emptyTable)
  ∧ (∀ hd p1 p2 ic asat arate gr msn s1 s2 a b : Table,
      p1.select ["UNITID", "IGRNT_A"] = .ok s1 →
      p2.select ["UNITID", "NPT442"] = .ok s2 →
      asat.select ["UNITID", "SATVR75", "SATMT75"] = .ok a →
      arate.select ["UNITID", "DVADM01"] = .ok b →
      ic.cols.contains "TUITION2" = false →
      calculate_metrics hd p1 p2 ic asat arate gr msn = .error "KeyError")
  ∧ (∀ hd p1 p2 ic asat arate gr msn s1 s2 a b icd : Table,
      p1.select ["UNITID", "IGRNT_A"] = .ok s1 →
      p2.select ["UNITID", "NPT442"] = .ok s2 →
      asat.select ["UNITID", "SATVR75", "SATMT75"] = .ok a →
      arate.select ["UNITID", "DVADM01"] = .ok b →
      ic.select ["UNITID", "TUITION2"] = .ok icd →
      gr.cols.contains "GBA4RTT" = false →
      calculate_metrics hd p1 p2 ic asat arate gr msn = .ok emptyTable)
  ∧ (∀ hd p1 p2 ic asat arate gr msn s1 s2 a b icd grd : Table,
      p1.select ["UNITID", "IGRNT_A"] = .ok s1 →
      p2.select ["UNITID", "NPT442"] = .ok s2 →
      asat.select ["UNITID", "SATVR75", "SATMT75"] = .ok a →
      arate.select ["UNITID", "DVADM01"] = .ok b →
      ic.select ["UNITID", "TUITION2"] = .ok icd →
      gr.select ["UNITID", "GBA4RTT"] = .ok grd →
      msn.cols.contains "unitid" = false →
      calculate_metrics hd p1 p2 ic asat arate gr msn = .ok emptyTable) := by
  refine ⟨?_, ?_, ?_, ?_, ?_⟩
  · intro hd p1 p2 ic asat arate gr msn h1
    unfold calculate_metrics
    rw [select_error_of_missing p1 _ "IGRNT_A" (by simp) h1]
    rfl
  · intro hd p1 p2 ic asat arate gr msn s1 s2 h1 h2 ha
    unfold calculate_metrics
    rw [h1, h2, select_error_of_missing asat _ "SATVR75" (by simp) ha]
    rfl
  · intro hd p1 p2 ic asat arate gr msn s1 s2 a b h1 h2 ha hb hic
    unfold calculate_metrics
    rw [h1, h2, ha, hb, select_error_of_missing ic _ "TUITION2" (by simp) hic]
    rfl
  · intro hd p1 p2 ic asat arate gr msn s1 s2 a b icd h1 h2 ha hb hic hgr
    unfold calculate_metrics
    rw [h1, h2, ha, hb, hic, select_error_of_missing gr _ "GBA4RTT" (by simp) hgr]
    rfl
  · intro hd p1 p2 ic asat arate gr msn s1 s2 a b icd grd h1 h2 ha hb hic hgr hm
    unfold calculate_metrics
    rw [h1, h2, ha, hb, hic, hgr, select_error_of_missing msn _ "unitid" (by simp) hm]
    rfl

/-- Witness for C3 amended, at concrete tables for each of the five
schema-drift situations. -/
theorem C3_schema_error_handling_witness :
    calculate_metrics hdC9 sfaP1Bad sfaP2C9 icC9 admSatC9 admRateC9 grC9 missionC9 =
      .error "KeyError"
  ∧ calculate_metrics hdC9 sfaP1C9 sfaP2C9 icC9 sfaP1Bad admRateC9 grC9 missionC9 =
      .ok emptyTable
  ∧ calculate_metrics hdC9 sfaP1C9 sfaP2C9 sfaP1Bad admSatC9 admRateC9 grC9 missionC9 =
      .error "KeyError"
  ∧ calculate_metrics hdC9 sfaP1C9 sfaP2C9 icC9 admSatC9 admRateC9 sfaP1Bad missionC9 =
      .ok emptyTable
  ∧ calculate_metrics hdC9 sfaP1C9 sfaP2C9 icC9 admSatC9 admRateC9 grC9 sfaP1Bad =
      .ok emptyTable :=
  ⟨C3_schema_error_handling.1 hdC9 sfaP1Bad sfaP2C9 icC9 admSatC9 admRateC9 grC9
      missionC9 (by decide),
   C3_schema_error_handling.2.1 hdC9 sfaP1C9 sfaP2C9 icC9 sfaP1Bad admRateC9 grC9
      missionC9 sfaP1C9 sfaP2C9 (by decide) (by decide) (by decide),
   C3_schema_error_handling.2.2.1 hdC9 sfaP1C9 sfaP2C9 sfaP1Bad admSatC9 admRateC9 grC9
      missionC9 sfaP1C9 sfaP2C9 admSatC9 admRateC9 (by decide) (by decide) (by decide)
      (by decide) (by decide),
   C3_schema_error_handling.2.2.2.1 hdC9 sfaP1C9 sfaP2C9 icC9 admSatC9 admRateC9
      sfaP1Bad missionC9 sfaP1C9 sfaP2C9 admSatC9 admRateC9 icC9 (by decide) (by decide)
      (by decide) (by decide) (by decide) (by decide),
   C3_schema_error_handling.2.2.2.2 hdC9 sfaP1C9 sfaP2C9 icC9 admSatC9 admRateC9 grC9
      sfaP1Bad sfaP1C9 sfaP2C9 admSatC9 admRateC9 icC9 grC9 (by decide) (by decide)
      (by decide) (by decide) (by decide) (by decide) (by decide)⟩

/-!  Claim C2. -/

/-- Counterexample to C2: a pool whose single candidate fails both filter
tiers produces an empty report, the user-visible message prints — but
`to_csv` still executes (line 283 is unconditional), so an output file
(header row, zero data rows) is written, contradicting "writes no output
file". -/
theorem C2_counterexample :
    run_phase_3_pipeline stableArgsort hdC2 sfaP1C2 sfaP2C2 icC2 admSatC2 admRateC2
        grC2 missionC2 = .completed reportC2empty true true
  ∧ reportC2empty.rows.length = 0 := by
  exact ⟨by decide, by decide⟩

/-- C2 amended: when zero institutions qualify even under the fallback
tier, the pipeline terminates gracefully and prints the empty-result
message, but it still writes the output file (with zero data rows). -/
theorem C2_empty_result_behavior (kernel : List Val → List ℕ)
    (hd p1 p2 ic asat arate gr msn rep : Table) (fw msg : Bool)
    (h : run_phase_3_pipeline kernel hd p1 p2 ic asat arate gr msn =
      .completed rep fw msg)
    (hempty : rep.rows.isEmpty = true) : fw = true ∧ msg = true := by
  unfold run_phase_3_pipeline at h
  split at h
  · exact absurd h (by simp)
  · split at h
    · exact absurd h (by simp)
    · split at h
      · exact absurd h (by simp)
      · split at h
        · exact absurd h (by simp)
        · rw [PipeOutcome.completed.injEq] at h
          obtain ⟨hrep, hfw, hmsg⟩ := h
          exact ⟨hfw.symm, by rw [← hmsg, hrep, hempty]⟩

/-- Witness for C2 amended at the concrete empty-result scenario. -/
theorem C2_empty_result_behavior_witness :
    reportC2empty.rows.isEmpty = true ∧ (true = true ∧ true = true) :=
  ⟨by decide,
   C2_empty_result_behavior stableArgsort hdC2 sfaP1C2 sfaP2C2 icC2 admSatC2 admRateC2
     grC2 missionC2 reportC2empty true true (by decide) (by decide)⟩

/-!  Claim C9. -/

/-- Counterexample to C9: on the two-institution scenario the final
report consists of exactly one row — institution B (unitid 2).
Institution A is excluded before the composite score is ever computed
(its MGI 0.4 is below the pool median 0.5, and its net price 18000
exceeds the fallback 30th-percentile threshold 15900), so no
`Composite_A` exists in the pipeline and B cannot rank "above" A in a
report that does not contain A. -/
theorem C9_counterexample :
    reportC9.map (fun t => t.rows.map (fun r => Row.get r "UNITID")) = .ok [vc 2] := by
  decide

/-- C9 amended: the derived metrics are exactly as the claim computes
them (MGI 0.4/0.6, net-price ratio 0.9/0.3, graduation rate 0.6/0.9;
applying the composite formula to A's metrics would give 10/9 ≈ 1.11 and
to B's gives 5), but the pipeline computes a composite score only for
the filter survivors: the final report contains B alone (with composite
score 5), so B outranks A only in the sense that A is filtered out
entirely. -/
theorem C9_end_to_end :
    metricsC9.map (fun t => t.rows.map (fun r =>
        (Row.get r "INSTNM", Row.get r "MGI", Row.get r "NET_PRICE_RATIO",
          Row.get r "Graduation_Rate_4yr"))) =
      .ok [(Cell.s "A", vc (2/5), vc (9/10), vc (3/5)),
           (Cell.s "B", vc (3/5), vc (3/10), vc (9/10))]
  ∧ compositeFormula (Val.num (2/5)) (Val.num (3/5)) (Val.num (9/10)) = Val.num (10/9)
  ∧ compositeFormula (Val.num (3/5)) (Val.num (9/10)) (Val.num (3/10)) = Val.num 5
  ∧ reportC9.map (fun t => t.rows.map (fun r =>
        (Row.get r "INSTNM", Row.get r "Composite_Score"))) =
      .ok [(Cell.s "B", vc 5)] := by
  exact ⟨by decide, by decide, by decide, by decide⟩

/-!  Claim C10. -/

set_option maxHeartbeats 2000000 in
/-- C10: `generate_insights` never mutates its argument.  In the
heap-explicit embedding every frame that existed before the call — in
particular the input frame — is unchanged afterwards: all filters operate
on copies, and the composite-score column assignment mutates only the
copy allocated inside the function. -/
theorem C10_no_input_mutation (kernel : List Val → List ℕ) (h : Heap) (df i : ℕ)
    (hi : i < h.length) :
    ((generate_insightsHeap kernel h df).1)[i]? = h[i]? := by
  have q0 : h[i]? = h[i]? ∧ h.length ≤ h.length := ⟨rfl, le_refl _⟩
  have qapp : ∀ (g : Heap) (t : Table), g[i]? = h[i]? ∧ h.length ≤ g.length →
      (g ++ [t])[i]? = h[i]? ∧ h.length ≤ (g ++ [t]).length := by
    intro g t hq
    refine ⟨?_, ?_⟩
    · rw [List.getElem?_append_left (lt_of_lt_of_le hi hq.2), hq.1]
    · rw [List.length_append]
      omega
  have qset : ∀ (g : Heap) (j : ℕ) (t : Table),
      g[i]? = h[i]? ∧ h.length ≤ g.length → h.length ≤ j →
      (g.set j t)[i]? = h[i]? ∧ h.length ≤ (g.set j t).length := by
    intro g j t hq hj
    refine ⟨?_, ?_⟩
    · rw [List.getElem?_set_ne (by omega), hq.1]
    · rw [List.length_set]
      exact hq.2
  have qif : ∀ (g : Heap) (t : Table) (j0 : ℕ) (c : Prop) (inst : Decidable c),
      g[i]? = h[i]? ∧ h.length ≤ g.length → h.length ≤ j0 →
      ((if c then (g ++ [t], g.length) else (g, j0)).1[i]? = h[i]? ∧
        h.length ≤ (if c then (g ++ [t], g.length) else (g, j0)).1.length) ∧
      h.length ≤ (if c then (g ++ [t], g.length) else (g, j0)).2 := by
    intro g t j0 c inst hq hj0
    split
    · exact ⟨qapp g t hq, hq.2⟩
    · exact ⟨hq, hj0⟩
  unfold generate_insightsHeap
  dsimp only []
  split
  · refine (qapp _ _ (qset _ _ _ ?_ ?_)).1
    · exact (qif _ _ _ _ _ (qapp _ _ (qapp _ _ (qapp _ _ q0))) (by simp)).1
    · exact (qif _ _ _ _ _ (qapp _ _ (qapp _ _ (qapp _ _ q0))) (by simp)).2
  · refine (qapp _ _ (qapp _ _ (qset _ _ _ ?_ ?_))).1
    · exact (qif _ _ _ _ _ (qapp _ _ (qapp _ _ (qapp _ _ q0))) (by simp)).1
    · exact (qif _ _ _ _ _ (qapp _ _ (qapp _ _ (qapp _ _ q0))) (by simp)).2

/-- Witness for C10 on a concrete one-frame heap. -/
theorem C10_no_input_mutation_witness :
    0 < ([dfC4] : Heap).length
  ∧ ((generate_insightsHeap stableArgsort [dfC4] 0).1)[0]? = ([dfC4] : Heap)[0]? :=
  ⟨by decide, C10_no_input_mutation stableArgsort [dfC4] 0 0 (by decide)⟩

/-!  Claim C7. -/

theorem joinSpec_eq_source (hd s1 s2 a b icd grd msnd : Table) :
    dropFinancial (mergeAll hd (Table.mergeT s1 s2 "UNITID" true)
        (Table.mergeT a b "UNITID" false) icd grd msnd) =
      joinSequenceSpec hd s1 s2 a b icd grd msnd := by
  unfold dropFinancial joinSequenceSpec mergeAll Table.dropnaSubset Table.filterRows
  congr 1
  refine List.filter_congr ?_
  intro r _
  simp [Bool.and_assoc]

/-- C7: the metric calculator's join sequence is exactly the spec's
steps 1-8 — part 1 ⨝ part 2 inner; admissions score ⟕ rate; then the
filtered institution table left-joined in turn with tuition, merged
financial aid, merged admissions, outcomes, mission; and the financial
drop afterwards removes exactly the rows missing sticker price, average
grant or net price. -/
theorem C7_join_sequence :
    (∀ hd s1 s2 a b icd grd msnd : Table,
      dropFinancial (mergeAll hd (Table.mergeT s1 s2 "UNITID" true)
          (Table.mergeT a b "UNITID" false) icd grd msnd) =
        joinSequenceSpec hd s1 s2 a b icd grd msnd)
  ∧ (∀ t : Table, ∀ r : Row, r ∈ (dropFinancial t).rows ↔
      r ∈ t.rows ∧ (Row.get r "TUITION2").cellNA = false ∧
        (Row.get r "IGRNT_A").cellNA = false ∧ (Row.get r "NPT442").cellNA = false)
  ∧ (∀ hd p1 p2 ic asat arate gr msn s1 s3 a b icd grd msnd : Table,
      p1.select ["UNITID", "IGRNT_A"] = .ok s1 →
      p2.select ["UNITID", "NPT442"] = .ok s3 →
      asat.select ["UNITID", "SATVR75", "SATMT75"] = .ok a →
      arate.select ["UNITID", "DVADM01"] = .ok b →
      ic.select ["UNITID", "TUITION2"] = .ok icd →
      gr.select ["UNITID", "GBA4RTT"] = .ok grd →
      msn.select ["unitid", "mission"] = .ok msnd →
      calculate_metrics hd p1 p2 ic asat arate gr msn =
        .ok (metricsStage (joinSequenceSpec hd s1 s3 a b icd grd
          (Table.renameCols msnd [("unitid", "UNITID")])))) := by
  refine ⟨joinSpec_eq_source, ?_, ?_⟩
  · intro t r
    unfold dropFinancial Table.dropnaSubset Table.filterRows
    simp [List.mem_filter]
  · intro hd p1 p2 ic asat arate gr msn s1 s3 a b icd grd msnd h1 h2 ha hb hic hgr hm
    unfold calculate_metrics
    rw [h1, h2, ha, hb, hic, hgr, hm, ← joinSpec_eq_source]
    rfl

/-- Witness for C7 at the end-to-end scenario tables. -/
theorem C7_join_sequence_witness :
    calculate_metrics hdC9 sfaP1C9 sfaP2C9 icC9 admSatC9 admRateC9 grC9 missionC9 =
      .ok (metricsStage (joinSequenceSpec hdC9 sfaP1C9 sfaP2C9 admSatC9 admRateC9 icC9
        grC9 (Table.renameCols missionC9 [("unitid", "UNITID")]))) :=
  C7_join_sequence.2.2 hdC9 sfaP1C9 sfaP2C9 icC9 admSatC9 admRateC9 grC9 missionC9
    sfaP1C9 sfaP2C9 admSatC9 admRateC9 icC9 grC9 missionC9
    (by decide) (by decide) (by decide) (by decide) (by decide) (by decide) (by decide)

/-!  Claim C8. -/

theorem mem_of_lookup_eq_some {α β : Type} [DecidableEq α] {k : α} {v : β}
    {l : List (α × β)} (h : List.lookup k l = some v) : (k, v) ∈ l := by
  induction l with
  | nil => simp [List.lookup] at h
  | cons p rest ih =>
    by_cases hk : k = p.1
    · simp only [List.lookup, hk, beq_self_eq_true] at h
      injection h with hv
      subst hk
      rw [← hv]
      exact (by cases p; exact List.mem_cons_self _ _)
    · simp only [List.lookup, beq_false_of_ne hk] at h
      exact List.mem_cons_of_mem _ (ih h)

theorem renameKey_eq_or_mem (m : List (String × String)) (k : String) :
    Table.renameKey m k = k ∨ (k, Table.renameKey m k) ∈ m := by
  unfold Table.renameKey
  cases hl : List.lookup k m with
  | none => exact Or.inl rfl
  | some v => exact Or.inr (by simpa using mem_of_lookup_eq_some hl)

theorem renameKey_to_grad (k : String)
    (hk : Table.renameKey renameMap k = "Graduation_Rate_4yr") :
    k = "GBA4RTT" ∨ k = "Graduation_Rate_4yr" := by
  rcases renameKey_eq_or_mem renameMap k with h | h
  · exact Or.inr (by rw [← h, hk])
  · rw [hk] at h
    unfold renameMap at h
    simp at h
    exact Or.inl h

theorem keys_fillnaRow (c : String) (x : Val) (r : Row) :
    (Table.fillnaRow c x r).map Prod.fst = r.map Prod.fst := by
  unfold Table.fillnaRow
  rw [List.map_map]
  refine List.map_congr_left ?_
  intro p _
  by_cases hcond : p.1 = c ∧ p.2.cellNA
  · simp only [Function.comp_apply, if_pos hcond]
    exact hcond.1.symm
  · simp only [Function.comp_apply, if_neg hcond]

/-- Projection helpers: the row lists the four derivation-stage
operations produce. -/
theorem rows_addValCol (t : Table) (n : String) (f : Row → Val) :
    (Table.addValCol t n f).rows = t.rows.map (fun r => r ++ [(n, Cell.v (f r))]) := rfl

theorem rows_fillnaCol (t : Table) (c : String) (x : Val) :
    (Table.fillnaCol t c x).rows = t.rows.map (Table.fillnaRow c x) := rfl

theorem rows_renameCols (t : Table) (m : List (String × String)) :
    (Table.renameCols t m).rows = t.rows.map (Table.renameRow m) := rfl

theorem rows_rescaleCol (t : Table) (c : String) :
    (Table.rescaleCol t c).rows = t.rows.map (Table.rescaleRow c) := rfl

set_option maxHeartbeats 1000000 in
/-- C8: in the derivation stage, every absent graduation-rate cell is
filled with the median of the graduation-rate column over the rows that
survived the financial drop (appending the MGI column first does not
change that median, second conjunct), and the filled value is what the
later percentage rescaling divides by 100 — so the fill happens after
MGI is computed and before the rescaling, as the stage order in
`metricsStage` shows. -/
theorem C8_grad_median_fill (t : Table) (i : ℕ) (h1 : i < t.rows.length)
    (h2 : (List.lookup "GBA4RTT" (t.rows.getD i [])).isSome = true)
    (h3 : "Graduation_Rate_4yr" ∉ (t.rows.getD i []).map Prod.fst) :
    Row.get ((metricsStage t).rows.getD i []) "Graduation_Rate_4yr" =
      Cell.v (Val.div
        (if (Row.get (t.rows.getD i []) "GBA4RTT").cellNA then
          Table.medianCol t "GBA4RTT"
        else Row.getV (t.rows.getD i []) "GBA4RTT") (Val.num 100))
  ∧ Table.medianCol (Table.addValCol t "MGI"
      (fun r => Val.div (Row.getV r "IGRNT_A") (Row.getV r "TUITION2"))) "GBA4RTT" =
    Table.medianCol t "GBA4RTT" := by
  have hmed := medianCol_addValCol t "MGI" "GBA4RTT"
    (fun r => Val.div (Row.getV r "IGRNT_A") (Row.getV r "TUITION2")) (by decide)
  refine ⟨?_, hmed⟩
  unfold metricsStage
  simp only [rows_addValCol, rows_fillnaCol, rows_renameCols, rows_rescaleCol,
    List.map_map]
  rw [getD_map_of_lt _ t.rows i [] [] h1]
  simp only [Function.comp_apply]
  rw [row_get_rescaleRow_ne _ (by decide), row_get_rescaleRow_self, Row.getV]
  rw [row_get_renameRow renameMap "GBA4RTT" "Graduation_Rate_4yr" _ (by decide) ?huniq]
  case huniq =>
    intro p hp hpk
    rcases renameKey_to_grad p.1 hpk with h | h
    · exact h
    · exfalso
      rcases List.mem_append.mp hp with hp1 | hp2
      · have hkey : p.1 ∈ (Table.fillnaRow "GBA4RTT" (Table.medianCol
            (Table.addValCol t "MGI" (fun r =>
              Val.div (Row.getV r "IGRNT_A") (Row.getV r "TUITION2"))) "GBA4RTT")
            (t.rows.getD i [] ++
              [("MGI", Cell.v (Val.div (Row.getV (t.rows.getD i []) "IGRNT_A")
                (Row.getV (t.rows.getD i []) "TUITION2")))])).map Prod.fst :=
          List.mem_map_of_mem Prod.fst hp1
        rw [keys_fillnaRow, List.map_append] at hkey
        rcases List.mem_append.mp hkey with hk1 | hk2
        · rw [h] at hk1
          exact h3 hk1
        · have hmgi : p.1 = "MGI" := by simpa using hk2
          rw [h] at hmgi
          exact absurd hmgi (by decide)
      · have hnpr : p.1 = "NET_PRICE_RATIO" := by
          have := List.mem_singleton.mp hp2
          simpa using congrArg Prod.fst this
        rw [h] at hnpr
        exact absurd hnpr (by decide)
  rw [row_get_append_ne (by decide),
    row_get_fillnaRow_self _ (lookup_isSome_append h2),
    row_get_append_ne (by decide), hmed]
  by_cases hna : (Row.get (t.rows.getD i []) "GBA4RTT").cellNA
  · rw [if_pos hna, if_pos hna]
    rfl
  · rw [if_neg hna, if_neg hna]
    rfl

/-- A concrete post-drop pool: the first row misses its graduation rate,
the second has 60. -/
def tC8 : Table :=
  { cols := ["UNITID", "TUITION2", "IGRNT_A", "NPT442", "GBA4RTT"],
    rows := [[("UNITID", vc 1), ("TUITION2", vc 100), ("IGRNT_A", vc 50),
              ("NPT442", vc 80), ("GBA4RTT", naCell)],
             [("UNITID", vc 2), ("TUITION2", vc 100), ("IGRNT_A", vc 50),
              ("NPT442", vc 80), ("GBA4RTT", vc 60)]] }

/-- Witness for C8: the absent graduation rate of the first row is
filled with the sole present rate (60) and then rescaled to 0.6. -/
theorem C8_grad_median_fill_witness :
    (Row.get ((metricsStage tC8).rows.getD 0 []) "Graduation_Rate_4yr" =
      Cell.v (Val.div
        (if (Row.get (tC8.rows.getD 0 []) "GBA4RTT").cellNA then
          Table.medianCol tC8 "GBA4RTT"
        else Row.getV (tC8.rows.getD 0 []) "GBA4RTT") (Val.num 100))
    ∧ Table.medianCol (Table.addValCol tC8 "MGI"
        (fun r => Val.div (Row.getV r "IGRNT_A") (Row.getV r "TUITION2"))) "GBA4RTT" =
      Table.medianCol tC8 "GBA4RTT")
  ∧ Table.medianCol tC8 "GBA4RTT" = Val.num 60 :=
  ⟨C8_grad_median_fill tC8 0 (by decide) (by decide) (by decide), by decide⟩

/-!  Structure of the descending-sort indexer (shared by C4 and C5). -/

/-- Column values of a table in row order (NaN included). -/
def colValList (t : Table) (c : String) : List Val :=
  t.rows.map (fun r => Row.getV r c)

/-- Positions of non-NaN keys, in row order. -/
def nnIdx (t : Table) (c : String) : List ℕ :=
  (List.range t.rows.length).filter (fun i => !((colValList t c).getD i Val.na).isNA)

/-- Positions of NaN keys, in row order. -/
def nanIdxL (t : Table) (c : String) : List ℕ :=
  (List.range t.rows.length).filter (fun i => ((colValList t c).getD i Val.na).isNA)

/-- The reversed non-NaN key values handed to the argsort kernel. -/
def rvL (t : Table) (c : String) : List Val :=
  ((nnIdx t c).map (fun i => (colValList t c).getD i Val.na)).reverse

/-- The reversed non-NaN positions. -/
def riL (t : Table) (c : String) : List ℕ := (nnIdx t c).reverse

theorem sortIndexer_eq (kernel : List Val → List ℕ) (t : Table) (c : String) :
    sortIndexer kernel t c =
      ((kernel (rvL t c)).map (fun kk => (riL t c).getD kk 0)).reverse ++ nanIdxL t c :=
  rfl

theorem rvL_nafree (t : Table) (c : String) : ∀ x ∈ rvL t c, x.isNA = false := by
  intro x hx
  rw [rvL, List.mem_reverse] at hx
  obtain ⟨i, hi, rfl⟩ := List.mem_map.mp hx
  have := List.mem_filter.mp hi
  simpa using this.2

theorem rvL_eq_map_riL (t : Table) (c : String) :
    rvL t c = (riL t c).map (fun i => (colValList t c).getD i Val.na) := by
  rw [rvL, riL, List.map_reverse]

theorem riL_length (t : Table) (c : String) : (riL t c).length = (rvL t c).length := by
  rw [rvL, riL, List.length_reverse, List.length_reverse, List.length_map]

theorem mem_riL_lt (t : Table) (c : String) : ∀ i ∈ riL t c, i < t.rows.length := by
  intro i hi
  rw [riL, List.mem_reverse] at hi
  have := (List.mem_filter.mp hi).1
  simpa [List.mem_range] using this

theorem mem_nanIdxL_lt (t : Table) (c : String) : ∀ i ∈ nanIdxL t c, i < t.rows.length := by
  intro i hi
  have := (List.mem_filter.mp hi).1
  simpa [List.mem_range] using this

theorem kernel_mem_lt {kernel : List Val → List ℕ} (hk : IsValidArgsort kernel)
    (t : Table) (c : String) :
    ∀ kk ∈ kernel (rvL t c), kk < (rvL t c).length := by
  intro kk hkk
  have hperm := (hk (rvL t c) (rvL_nafree t c)).1
  have := hperm.mem_iff.mp hkk
  simpa [List.mem_range] using this

/-- Every position the sort indexer emits is a valid row position. -/
theorem sortIndexer_mem {kernel : List Val → List ℕ} (hk : IsValidArgsort kernel)
    (t : Table) (c : String) :
    ∀ j ∈ sortIndexer kernel t c, j < t.rows.length := by
  intro j hj
  rw [sortIndexer_eq] at hj
  rcases List.mem_append.mp hj with hj1 | hj2
  · rw [List.mem_reverse] at hj1
    obtain ⟨kk, hkk, rfl⟩ := List.mem_map.mp hj1
    have hlt : kk < (riL t c).length := by
      rw [riL_length]
      exact kernel_mem_lt hk t c kk hkk
    exact mem_riL_lt t c _ (mem_of_getD _ kk 0 hlt)
  · exact mem_nanIdxL_lt t c j hj2

theorem val_lt_of_na_right {a b : Val} (hb : b.isNA = true) : Val.lt a b = false := by
  cases b <;> simp [Val.isNA] at hb ⊢
  exact val_lt_na_right a

/-- The score column of the descending-sorted table is pairwise
non-increasing (NaN scores sit at the end and compare false). -/
theorem sorted_scores_pairwise {kernel : List Val → List ℕ} (hk : IsValidArgsort kernel)
    (t : Table) (c : String) :
    List.Pairwise (fun a b => Val.lt a b = false)
      ((Table.sortValuesDesc kernel t c).rows.map (fun r => Row.getV r c)) := by
  have hrows : (Table.sortValuesDesc kernel t c).rows =
      (sortIndexer kernel t c).map (fun i => t.rows.getD i []) := rfl
  rw [hrows, List.map_map]
  have hmap : (sortIndexer kernel t c).map
        ((fun r => Row.getV r c) ∘ (fun i => t.rows.getD i [])) =
      (sortIndexer kernel t c).map (fun i => (colValList t c).getD i Val.na) := by
    refine List.map_congr_left ?_
    intro j hj
    have hlt := sortIndexer_mem hk t c j hj
    simp only [Function.comp_apply]
    rw [colValList, getD_map_of_lt _ t.rows j Val.na [] hlt]
  rw [hmap, sortIndexer_eq, List.map_append]
  have hpart1 : (((kernel (rvL t c)).map (fun kk => (riL t c).getD kk 0)).reverse).map
        (fun i => (colValList t c).getD i Val.na) =
      ((kernel (rvL t c)).map (fun kk => (rvL t c).getD kk Val.na)).reverse := by
    rw [List.map_reverse, List.map_map]
    congr 1
    refine List.map_congr_left ?_
    intro kk hkk
    have hlt : kk < (riL t c).length := by
      rw [riL_length]
      exact kernel_mem_lt hk t c kk hkk
    simp only [Function.comp_apply]
    rw [rvL_eq_map_riL, getD_map_of_lt _ (riL t c) kk Val.na 0 hlt]
  rw [hpart1]
  refine List.pairwise_append.mpr ⟨?_, ?_, ?_⟩
  · rw [List.pairwise_reverse]
    have hp := (hk (rvL t c) (rvL_nafree t c)).2
    have hm := (@List.pairwise_map ℕ Val (fun kk => (rvL t c).getD kk Val.na)
      (fun x y => Val.le x y = true) (kernel (rvL t c))).mpr hp
    exact hm.imp (fun hab => val_lt_eq_false_of_le hab)
  · refine List.pairwise_of_forall_mem_list ?_
    intro a _ b hb
    obtain ⟨j, hj, rfl⟩ := List.mem_map.mp hb
    exact val_lt_of_na_right (by simpa using (List.mem_filter.mp hj).2)
  · intro a _ b hb
    obtain ⟨j, hj, rfl⟩ := List.mem_map.mp hb
    exact val_lt_of_na_right (by simpa using (List.mem_filter.mp hj).2)

theorem generate_insights_ok_iff (kernel : List Val → List ℕ) (df rep : Table) :
    generate_insights kernel df = .ok rep ↔
      ∃ proj, (Table.sortValuesDesc kernel (scoredOf df) "Composite_Score").select
          reportCols = .ok proj ∧ rep = Table.headN proj 20 := by
  unfold generate_insights scoredOf
  cases hs : (Table.sortValuesDesc kernel
      (Table.addValCol (survivors df) "Composite_Score" compositeRow)
      "Composite_Score").select reportCols with
  | error e =>
    constructor
    · intro h
      dsimp only [] at h
      rw [hs] at h
      exact absurd h (by simp [Bind.bind, Except.bind])
    · rintro ⟨proj, hproj, -⟩
      exact absurd hproj (by simp)
  | ok proj =>
    constructor
    · intro h
      dsimp only [] at h
      rw [hs] at h
      refine ⟨proj, rfl, ?_⟩
      have h2 : Except.ok (Table.headN proj 20) = Except.ok rep := h
      injection h2 with h3
      exact h3.symm
    · rintro ⟨proj2, hproj2, hrep⟩
      injection hproj2 with h3
      subst h3
      subst hrep
      dsimp only []
      rw [hs]
      rfl

theorem select_ok_rows {t : Table} {cs : List String} {proj : Table}
    (h : t.select cs = .ok proj) :
    proj.rows = t.rows.map (fun r => cs.map (fun c => (c, Row.get r c))) := by
  unfold Table.select at h
  split at h
  · cases h
    rfl
  · exact absurd h (by simp)

/-- C4 amended: for every admissible quicksort behavior and every pool,
the final report has at most 20 rows and is ordered by composite score
descending.  (The tie-order half of the original claim fails; see the
counterexample.) -/
theorem C4_report_shape (kernel : List Val → List ℕ) (hk : IsValidArgsort kernel)
    (df rep : Table) (h : generate_insights kernel df = .ok rep) :
    rep.rows.length ≤ 20 ∧ DescendingByComposite rep := by
  obtain ⟨proj, hsel, hrep⟩ := (generate_insights_ok_iff kernel df rep).mp h
  have hproj := select_ok_rows hsel
  constructor
  · rw [hrep]
    simpa [Table.headN] using List.length_take_le 20 proj.rows
  · unfold DescendingByComposite reportScores
    have hscores : proj.rows.map (fun r => Row.getV r "Composite_Score") =
        (Table.sortValuesDesc kernel (scoredOf df) "Composite_Score").rows.map
          (fun r => Row.getV r "Composite_Score") := by
      rw [hproj, List.map_map]
      refine List.map_congr_left ?_
      intro r _
      simp only [Function.comp_apply]
      unfold Row.getV
      rw [row_get_select_row r (by decide)]
    have hpair := sorted_scores_pairwise hk (scoredOf df) "Composite_Score"
    rw [← hscores] at hpair
    rw [hrep]
    show List.Pairwise _ ((proj.rows.take 20).map fun r => Row.getV r "Composite_Score")
    rw [List.map_take]
    exact hpair.sublist (List.take_sublist _ _)

/-- Report row of the tie pool in projected column order. -/
def repRowC4 (id : ℚ) (nm : String) : Row :=
  [("UNITID", vc id), ("INSTNM", Cell.s nm), ("CONTROL", vc 1),
   ("Sticker_Price", vc 10000), ("Avg_Inst_Grant", vc 5000),
   ("Net_Price_MidClass", vc 10000), ("MGI", vc (1/2)),
   ("Graduation_Rate_4yr", vc (1/2)), ("Admissions_Rate", vc (1/2)),
   ("SATVR75", vc 500), ("SATMT75", vc 500), ("Composite_Score", vc 2),
   ("MISSION", Cell.s "m")]

/-- The tie-pool report under the stable kernel: input order preserved. -/
def repC4good : Table := { cols := reportCols, rows := [repRowC4 1 "A", repRowC4 2 "B"] }

/-- The tie-pool report under the tie-swapping kernel: tied rows reversed. -/
def repC4bad : Table := { cols := reportCols, rows := [repRowC4 2 "B", repRowC4 1 "A"] }

/-- Witness for C4 amended at the stable kernel and the tie pool. -/
theorem C4_report_shape_witness :
    generate_insights stableArgsort dfC4 = .ok repC4good
  ∧ (repC4good.rows.length ≤ 20 ∧ DescendingByComposite repC4good) :=
  ⟨by decide, C4_report_shape stableArgsort stableArgsort_valid dfC4 repC4good (by decide)⟩

/-- Counterexample to C4 as stated: `tieSwapKernel` meets everything the
default `kind='quicksort'` guarantees (a sorted permutation — see
`tieSwapKernel_valid`), yet on the two-row tie pool it emits the tied
rows in the order B, A, the reverse of their input order, so the
stability clause of the claim fails. -/
theorem C4_counterexample : ¬ C4Statement := by
  intro hall
  have hst := (hall tieSwapKernel tieSwapKernel_valid dfC4 repC4bad (by decide)).2.2
  have h2 := hst 0 1 (by decide) (by decide) (by decide)
  exact absurd h2 (by decide)

/-!  Claim C5. -/

/-- Counterexample to C5: in the five-institution pool, institution 1
has sticker price zero; it survives the financial drop (zero is not
absent), its MGI `5000/0 = +inf` passes every MGI quantile threshold,
its composite score is NaN — and it is the single row of the final
report.  A zero-sticker-price row therefore can appear in the final
report. -/
theorem C5_counterexample :
    ((calculate_metrics hdC5 sfaP1C5 sfaP2C5 icC5 admSatC5 admRateC5 grC5
        missionC5).bind (generate_insights stableArgsort)).map
      (fun t => (t.rows.length, t.rows.map (fun r =>
        (Row.get r "Sticker_Price", Row.get r "MGI", Row.get r "Composite_Score")))) =
      .ok (1, [(vc 0, Cell.v Val.inf, Cell.v Val.na)]) := by
  decide

theorem survivors_rows_subset (df : Table) :
    ∀ r ∈ (survivors df).rows, r ∈ df.rows := by
  intro r hr
  unfold survivors at hr
  split at hr
  · unfold fallbackTier Table.filterRows at hr
    exact (List.mem_filter.mp hr).1
  · unfold tier1 Table.filterRows at hr
    exact (List.mem_filter.mp (List.mem_filter.mp hr).1).1

theorem dropFinancial_rows_subset (u : Table) :
    ∀ r ∈ (dropFinancial u).rows, r ∈ u.rows := by
  intro r hr
  unfold dropFinancial Table.dropnaSubset Table.filterRows at hr
  exact (List.mem_filter.mp hr).1

theorem renameKey_to_sticker (k : String)
    (hk : Table.renameKey renameMap k = "Sticker_Price") :
    k = "TUITION2" ∨ k = "Sticker_Price" := by
  rcases renameKey_eq_or_mem renameMap k with h | h
  · exact Or.inr (by rw [← h, hk])
  · rw [hk] at h
    unfold renameMap at h
    simp at h
    exact Or.inl h

set_option maxHeartbeats 1000000 in
/-- C5 amended: a row whose sticker price is absent never appears in the
final report — every report row's sticker-price cell is taken unchanged
from an input-pool row (first conjunct), and after the financial drop
every derived row carries a present (non-NaN) sticker price (second
conjunct).  A row with a present but zero sticker price, however, can
appear (see the counterexample). -/
theorem C5_sticker_presence :
    (∀ (kernel : List Val → List ℕ) (df rep : Table), IsValidArgsort kernel →
      generate_insights kernel df = .ok rep →
      ∀ r ∈ rep.rows, ∃ r0 ∈ df.rows,
        Row.get r "Sticker_Price" = Row.get r0 "Sticker_Price")
  ∧ (∀ u : Table, (∀ r ∈ u.rows, "Sticker_Price" ∉ r.map Prod.fst) →
      ∀ rr ∈ (metricsStage (dropFinancial u)).rows,
        (Row.get rr "Sticker_Price").cellNA = false) := by
  constructor
  · intro kernel df rep hk h r hr
    obtain ⟨proj, hsel, hrep⟩ := (generate_insights_ok_iff kernel df rep).mp h
    rw [hrep] at hr
    have hr2 : r ∈ proj.rows := List.take_subset 20 proj.rows hr
    rw [select_ok_rows hsel] at hr2
    obtain ⟨rs, hrs, rfl⟩ := List.mem_map.mp hr2
    have hrows : (Table.sortValuesDesc kernel (scoredOf df) "Composite_Score").rows =
        (sortIndexer kernel (scoredOf df) "Composite_Score").map
          (fun i => (scoredOf df).rows.getD i []) := rfl
    rw [hrows] at hrs
    obtain ⟨idx, hidx, rfl⟩ := List.mem_map.mp hrs
    have hlt := sortIndexer_mem hk (scoredOf df) "Composite_Score" idx hidx
    have hmem := mem_of_getD (scoredOf df).rows idx [] hlt
    have hscored : (scoredOf df).rows = (survivors df).rows.map
        (fun rv => rv ++ [("Composite_Score", Cell.v (compositeRow rv))]) := rfl
    rw [hscored] at hmem
    obtain ⟨rv, hrv, hrv2⟩ := List.mem_map.mp hmem
    refine ⟨rv, survivors_rows_subset df rv hrv, ?_⟩
    rw [row_get_select_row _ (by decide), hscored, ← hrv2,
      row_get_append_ne (by decide)]
  · intro u hkeys rr hrr
    unfold metricsStage at hrr
    simp only [rows_addValCol, rows_fillnaCol, rows_renameCols, rows_rescaleCol,
      List.map_map] at hrr
    obtain ⟨r0, hr0, rfl⟩ := List.mem_map.mp hrr
    simp only [Function.comp_apply]
    rw [row_get_rescaleRow_ne _ (by decide), row_get_rescaleRow_ne _ (by decide)]
    rw [row_get_renameRow renameMap "TUITION2" "Sticker_Price" _ (by decide) ?huniq]
    case huniq =>
      intro p hp hpk
      rcases renameKey_to_sticker p.1 hpk with h | h
      · exact h
      · exfalso
        rcases List.mem_append.mp hp with hp1 | hp2
        · have hkey : p.1 ∈ (Table.fillnaRow "GBA4RTT"
              (Table.medianCol (Table.addValCol (dropFinancial u) "MGI" (fun r =>
                Val.div (Row.getV r "IGRNT_A") (Row.getV r "TUITION2"))) "GBA4RTT")
              (r0 ++ [("MGI", Cell.v (Val.div (Row.getV r0 "IGRNT_A")
                (Row.getV r0 "TUITION2")))])).map Prod.fst :=
            List.mem_map_of_mem Prod.fst hp1
          rw [keys_fillnaRow, List.map_append] at hkey
          rcases List.mem_append.mp hkey with hk1 | hk2
          · rw [h] at hk1
            exact hkeys r0 (dropFinancial_rows_subset u r0 hr0) hk1
          · have hmgi : p.1 = "MGI" := by simpa using hk2
            rw [h] at hmgi
            exact absurd hmgi (by decide)
        · have hnpr : p.1 = "NET_PRICE_RATIO" := by
            have := List.mem_singleton.mp hp2
            simpa using congrArg Prod.fst this
          rw [h] at hnpr
          exact absurd hnpr (by decide)
    rw [row_get_append_ne (by decide), row_get_fillnaRow_ne _ (by decide),
      row_get_append_ne (by decide)]
    unfold dropFinancial Table.dropnaSubset Table.filterRows at hr0
    have hp := (List.mem_filter.mp hr0).2
    simp at hp
    exact hp.1

/-- Witness for C5 amended: the provenance conjunct at the stable kernel
on the tie pool, and the presence conjunct on a concrete post-drop pool. -/
theorem C5_sticker_presence_witness :
    (∀ r ∈ repC4good.rows, ∃ r0 ∈ dfC4.rows,
      Row.get r "Sticker_Price" = Row.get r0 "Sticker_Price")
  ∧ (∀ rr ∈ (metricsStage (dropFinancial tC8)).rows,
      (Row.get rr "Sticker_Price").cellNA = false) :=
  ⟨C5_sticker_presence.1 stableArgsort dfC4 repC4good stableArgsort_valid (by decide),
   C5_sticker_presence.2 tC8 (by decide)⟩
